import Mathlib

/-!
Verification development for the metadata-retrieval ingestion service.

The Go sources are shallowly embedded:
* the GraphQL response shapes (`github/graphql`) become plain structures,
  with `time.Time` values carried as their string rendering;
* the page-size policy (`getPerPage`, `downloadConnection`) becomes pure
  functions over `Int`;
* the versioned store (`github/store.DB`) becomes a pure state machine
  over in-memory tables; SQL upserts, the transaction, and `Cleanup` are
  modelled by explicit list transformations that mirror the statements;
* the HTTP middleware (`RateLimitTransport`, `retryTransport`) becomes
  functions over a response model with parsed headers, and the retry loop
  (backoff.WithMaxRetries) becomes a fuelled recursion;
* the traversal (`Downloader.DownloadRepository` and friends) becomes a
  program in a state-plus-error monad, with the GraphQL client replaced by
  an oracle supplying the server's pages.

The SHA-256 content fingerprint over the `fmt.Sprintf` rendering of a
record is modelled by an explicit serialization function per record type:
equal records yield equal fingerprints, which is the only property the
statements below rely on.
-/

namespace graphql

/-- PageInfo of a GraphQL connection (`HasNextPage`, `EndCursor`). -/
structure PageInfo where
  HasNextPage : Bool
  EndCursor : String
deriving DecidableEq, Inhabited

/-- Common connection fields plus the node list.  In Go each typed
connection embeds `Connection {PageInfo, TotalCount}` and adds `Nodes`;
the embedding is flattened here with the node type as a parameter. -/
structure Connection (α : Type) where
  PageInfo : PageInfo
  TotalCount : Int
  Nodes : List α
deriving DecidableEq, Inhabited

def Connection.GetPageInfo (c : Connection α) : graphql.PageInfo := c.PageInfo

def Connection.GetTotalCount (c : Connection α) : Int := c.TotalCount

def Connection.Len (c : Connection α) : Int := (c.Nodes.length : Int)

/-- A nested object carrying only a `TotalCount` field. -/
structure TotalCountOnly where
  TotalCount : Int
deriving DecidableEq, Inhabited

/-- A nested object carrying only a `Name` field. -/
structure NameOnly where
  Name : String
deriving DecidableEq, Inhabited

/-- A nested object carrying only a `DatabaseId` field. -/
structure DatabaseIdOnly where
  DatabaseID : Int
deriving DecidableEq, Inhabited

/-- A nested object carrying only an `Oid` field. -/
structure OidOnly where
  Oid : String
deriving DecidableEq, Inhabited

/-- User: `DatabaseId`, `Id` (node id) and `Login`. -/
structure User where
  DatabaseID : Int
  ID : String
  Login : String
deriving DecidableEq, Inhabited

/-- Actor: login, __typename discriminator, and the `... on User` part. -/
structure Actor where
  Login : String
  Typename : String
  User : User
deriving DecidableEq, Inhabited

/-- Milestone: node id and title. -/
structure Milestone where
  ID : String
  Title : String
deriving DecidableEq, Inhabited

/-- OrganizationFields of the GraphQL Organization object. -/
structure OrganizationFields where
  AvatarURL : String
  CreatedAt : String
  Description : String
  Email : String
  URL : String
  DatabaseID : Int
  Login : String
  Name : String
  ID : String
  OwnedPrivateRepos : TotalCountOnly
  PublicRepos : TotalCountOnly
  TotalPrivateRepos : TotalCountOnly
  UpdatedAt : String
deriving DecidableEq, Inhabited

/-- UserExtended: the User type with the extra profile fields. -/
structure UserExtended where
  AvatarURL : String
  Bio : String
  Company : String
  CreatedAt : String
  Followers : TotalCountOnly
  Following : TotalCountOnly
  IsHireable : Bool
  URL : String
  DatabaseID : Int
  Location : String
  Login : String
  Name : String
  ID : String
  OwnedPrivateRepos : TotalCountOnly
  PublicRepos : TotalCountOnly
  TotalPrivateRepos : TotalCountOnly
  UpdatedAt : String
deriving DecidableEq, Inhabited

/-- Organization: fields plus the membersWithRole connection. -/
structure Organization where
  OrganizationFields : OrganizationFields
  MembersWithRole : Connection UserExtended
deriving DecidableEq, Inhabited

/-- Repository owner: the `... on Organization` / `... on User` parts,
the login and the `__typename` discriminator. -/
structure RepositoryOwner where
  Organization : DatabaseIdOnly
  User : DatabaseIdOnly
  Login : String
  Typename : String
deriving DecidableEq, Inhabited

/-- RepositoryFields of the GraphQL Repository object. -/
structure RepositoryFields where
  MergeCommitAllowed : Bool
  RebaseMergeAllowed : Bool
  SquashMergeAllowed : Bool
  IsArchived : Bool
  CreatedAt : String
  DefaultBranchRef : NameOnly
  Description : String
  IsDisabled : Bool
  IsFork : Bool
  ForkCount : Int
  NameWithOwner : String
  HasIssuesEnabled : Bool
  HasWikiEnabled : Bool
  HomepageURL : String
  URL : String
  DatabaseID : Int
  PrimaryLanguage : NameOnly
  Name : String
  ID : String
  OpenIssues : TotalCountOnly
  Owner : RepositoryOwner
  IsPrivate : Bool
  PushedAt : String
  SSHURL : String
  Stargazers : TotalCountOnly
  UpdatedAt : String
  Watchers : TotalCountOnly
deriving DecidableEq, Inhabited

/-- A repositoryTopics node: `{ Topic { Name } }`. -/
structure TopicNode where
  Topic : NameOnly
deriving DecidableEq, Inhabited

/-- IssueFields of the GraphQL Issue object. -/
structure IssueFields where
  Body : String
  ClosedAt : String
  CreatedAt : String
  URL : String
  DatabaseID : Int
  Locked : Bool
  Milestone : Milestone
  ID : String
  Number : Int
  State : String
  Title : String
  UpdatedAt : String
  Author : Actor
deriving DecidableEq, Inhabited

/-- A ClosedByConnection node: `{ ClosedEvent { Actor } }`. -/
structure ClosedEventNode where
  Actor : Actor
deriving DecidableEq, Inhabited

/-- ClosedByConnection: `timelineItems(last:1, itemTypes:CLOSED_EVENT)`. -/
structure ClosedByConnection where
  Nodes : List ClosedEventNode
deriving DecidableEq, Inhabited

/-- Label: only a name. -/
structure Label where
  Name : String
deriving DecidableEq, Inhabited

/-- IssueComment fields. -/
structure IssueComment where
  AuthorAssociation : String
  Body : String
  CreatedAt : String
  URL : String
  DatabaseID : Int
  ID : String
  UpdatedAt : String
  Author : Actor
deriving DecidableEq, Inhabited

/-- Issue: fields plus the assignees, labels, comments and closed-by
connections. -/
structure Issue where
  IssueFields : IssueFields
  Assignees : Connection User
  Labels : Connection Label
  Comments : Connection IssueComment
  ClosedBy : ClosedByConnection
deriving DecidableEq, Inhabited

/-- Commit target of a Ref: the oid and the commit author login. -/
structure RefTarget where
  Oid : String
  AuthorLogin : String
deriving DecidableEq, Inhabited

/-- Repository identification inside a Ref: name and owner login. -/
structure RefRepository where
  Name : String
  OwnerLogin : String
deriving DecidableEq, Inhabited

/-- Ref: branch name, its repository and the target commit. -/
structure Ref where
  Name : String
  Repository : RefRepository
  Target : RefTarget
deriving DecidableEq, Inhabited

/-- PullRequestFields of the GraphQL PullRequest object. -/
structure PullRequestFields where
  Additions : Int
  AuthorAssociation : String
  BaseRef : Ref
  Body : String
  ChangedFiles : Int
  ClosedAt : String
  Commits : TotalCountOnly
  CreatedAt : String
  Deletions : Int
  HeadRef : Ref
  URL : String
  DatabaseID : Int
  MaintainerCanModify : Bool
  MergeCommit : OidOnly
  Mergeable : String
  Merged : Bool
  MergedAt : String
  MergedBy : Actor
  Milestone : Milestone
  ID : String
  Number : Int
  ReviewThreads : TotalCountOnly
  State : String
  Title : String
  UpdatedAt : String
  Author : Actor
deriving DecidableEq, Inhabited

/-- PullRequestReviewComment fields. -/
structure PullRequestReviewComment where
  AuthorAssociation : String
  Body : String
  Commit : OidOnly
  CreatedAt : String
  DiffHunk : String
  URL : String
  DatabaseID : Int
  ID : String
  OriginalCommit : OidOnly
  OriginalPosition : Int
  Path : String
  Position : Int
  UpdatedAt : String
  Author : Actor
deriving DecidableEq, Inhabited

/-- PullRequestReviewFields. -/
structure PullRequestReviewFields where
  Body : String
  Commit : OidOnly
  URL : String
  DatabaseID : Int
  ID : String
  State : String
  SubmittedAt : String
  Author : Actor
deriving DecidableEq, Inhabited

/-- PullRequestReview: fields plus the review-comments connection. -/
structure PullRequestReview where
  PullRequestReviewFields : PullRequestReviewFields
  Comments : Connection PullRequestReviewComment
deriving DecidableEq, Inhabited

/-- PullRequest: fields plus the assignees, labels, comments and reviews
connections. -/
structure PullRequest where
  PullRequestFields : PullRequestFields
  Assignees : Connection User
  Labels : Connection Label
  Comments : Connection IssueComment
  Reviews : Connection PullRequestReview
deriving DecidableEq, Inhabited

/-- Repository: fields plus the topics, issues and pullRequests
connections. -/
structure Repository where
  RepositoryFields : RepositoryFields
  RepositoryTopics : Connection TopicNode
  Issues : Connection Issue
  PullRequests : Connection PullRequest
deriving DecidableEq, Inhabited

end graphql

namespace github

/-- A connection descriptor: GraphQL field name and configured default
page size (`connectionType` in `downloader.go`). -/
structure connectionType where
  Name : String
  PageSize : Int
deriving DecidableEq, Inhabited

def topicsType : connectionType := { Name := "repositoryTopics", PageSize := 10 }

def assigneesType : connectionType := { Name := "assignees", PageSize := 2 }

def issuesType : connectionType := { Name := "issues", PageSize := 50 }

def issueCommentsType : connectionType := { Name := "issueComments", PageSize := 10 }

def pullRequestsType : connectionType := { Name := "pullRequests", PageSize := 50 }

def pullRequestReviewsType : connectionType := { Name := "pullRequestReviews", PageSize := 5 }

def pullRequestReviewCommentsType : connectionType := { Name := "pullRequestReviewComments", PageSize := 5 }

def labelsType : connectionType := { Name := "labels", PageSize := 2 }

def membersWithRole : connectionType := { Name := "membersWithRole", PageSize := 100 }

/-- getPerPage calculates how many resources to request based on the
total number and the number already downloaded: `perPage := total -
count`, capped at `limit`, and replaced by `fallback` when not positive
(in case entities appeared during the downloading process). -/
def getPerPage (total count fallback limit : Int) : Int :=
  let perPage := total - count
  let perPage := if perPage > limit then limit else perPage
  if perPage ≤ 0 then fallback else perPage

/-- The per-connection limit chosen inside `downloadConnection`:
`limit := 100`, except for `pullRequestsType`, whose configured page size
is used because the server times out with larger PR pages. -/
def connectionLimit (t : connectionType) : Int :=
  if t = pullRequestsType then t.PageSize else 100

/-- The page size requested for the next page of connection `t` whose
`total_count` is `total` and whose already-downloaded count is `count`
(the `variables[t.Page()]` assignment in `downloadConnection`). -/
def nextPageSize (t : connectionType) (total count : Int) : Int :=
  getPerPage total count t.PageSize (connectionLimit t)

end github

namespace store

open graphql

/-! ### Column rows of the eight versioned tables

Each `…Row` lists, in order, exactly the values bound to the insert
statement of the corresponding `Save…` method (the canonical columns,
excluding the bookkeeping columns `sum256` and `versions`). -/

/-- Row of `organizations_versioned` (canonical columns). -/
structure OrganizationRow where
  avatar_url : String
  collaborators : Int
  created_at : String
  description : String
  email : String
  htmlurl : String
  id : Int
  login : String
  name : String
  node_id : String
  owned_private_repos : Int
  public_repos : Int
  total_private_repos : Int
  updated_at : String
deriving DecidableEq, Inhabited

/-- Row of `users_versioned` (canonical columns). -/
structure UserRow where
  avatar_url : String
  bio : String
  company : String
  created_at : String
  email : String
  followers : Int
  following : Int
  hireable : Bool
  htmlurl : String
  id : Int
  location : String
  login : String
  name : String
  node_id : String
  organization_id : Int
  organization_login : String
  owned_private_repos : Int
  private_gists : Int
  public_gists : Int
  public_repos : Int
  total_private_repos : Int
  updated_at : String
deriving DecidableEq, Inhabited

/-- Row of `repositories_versioned` (canonical columns; the SQL column
named `private` is rendered here as `is_private` because `private` is a
reserved word of the host language). -/
structure RepositoryRow where
  allow_merge_commit : Bool
  allow_rebase_merge : Bool
  allow_squash_merge : Bool
  archived : Bool
  created_at : String
  default_branch : String
  description : String
  disabled : Bool
  fork : Bool
  forks_count : Int
  full_name : String
  has_issues : Bool
  has_wiki : Bool
  homepage : String
  htmlurl : String
  id : Int
  language : String
  name : String
  node_id : String
  open_issues_count : Int
  owner_id : Int
  owner_login : String
  owner_type : String
  is_private : Bool
  pushed_at : String
  sshurl : String
  stargazers_count : Int
  topics : List String
  updated_at : String
  watchers_count : Int
deriving DecidableEq, Inhabited

/-- Row of `issues_versioned` (canonical columns). -/
structure IssueRow where
  assignees : List String
  body : String
  closed_at : String
  closed_by_id : Int
  closed_by_login : String
  comments : Int
  created_at : String
  htmlurl : String
  id : Int
  labels : List String
  locked : Bool
  milestone_id : String
  milestone_title : String
  node_id : String
  number : Int
  repository_name : String
  repository_owner : String
  state : String
  title : String
  updated_at : String
  user_id : Int
  user_login : String
deriving DecidableEq, Inhabited

/-- Row of `issue_comments_versioned` (canonical columns). -/
structure IssueCommentRow where
  author_association : String
  body : String
  created_at : String
  htmlurl : String
  id : Int
  issue_number : Int
  node_id : String
  repository_name : String
  repository_owner : String
  updated_at : String
  user_id : Int
  user_login : String
deriving DecidableEq, Inhabited

/-- Row of `pull_requests_versioned` (canonical columns). -/
structure PullRequestRow where
  additions : Int
  assignees : List String
  author_association : String
  base_ref : String
  base_repository_name : String
  base_repository_owner : String
  base_sha : String
  base_user : String
  body : String
  changed_files : Int
  closed_at : String
  comments : Int
  commits : Int
  created_at : String
  deletions : Int
  head_ref : String
  head_repository_name : String
  head_repository_owner : String
  head_sha : String
  head_user : String
  htmlurl : String
  id : Int
  labels : List String
  maintainer_can_modify : Bool
  merge_commit_sha : String
  mergeable : Bool
  merged : Bool
  merged_at : String
  merged_by_id : Int
  merged_by_login : String
  milestone_id : String
  milestone_title : String
  node_id : String
  number : Int
  repository_name : String
  repository_owner : String
  review_comments : Int
  state : String
  title : String
  updated_at : String
  user_id : Int
  user_login : String
deriving DecidableEq, Inhabited

/-- Row of `pull_request_reviews_versioned` (canonical columns). -/
structure PullRequestReviewRow where
  body : String
  commit_id : String
  htmlurl : String
  id : Int
  node_id : String
  pull_request_number : Int
  repository_name : String
  repository_owner : String
  state : String
  submitted_at : String
  user_id : Int
  user_login : String
deriving DecidableEq, Inhabited

/-- Row of `pull_request_comments_versioned` (canonical columns); this
table stores the review comments. -/
structure PullRequestReviewCommentRow where
  author_association : String
  body : String
  commit_id : String
  created_at : String
  diff_hunk : String
  htmlurl : String
  id : Int
  in_reply_to : Int
  node_id : String
  original_commit_id : String
  original_position : Int
  path : String
  position : Int
  pull_request_number : Int
  pull_request_review_id : Int
  repository_name : String
  repository_owner : String
  updated_at : String
  user_id : Int
  user_login : String
deriving DecidableEq, Inhabited

/-! ### Content fingerprints

Go computes `sha256.Sum256([]byte(fmt.Sprintf(...)))` over the full
record (plus the id-context parameters).  The hash is modelled by the
serialized string itself; the development only relies on equal inputs
producing equal fingerprints. -/

def serStrList (xs : List String) : String :=
  "[" ++ String.intercalate " " xs ++ "]"

def serPageInfo (p : PageInfo) : String :=
  toString p.HasNextPage ++ " " ++ p.EndCursor

def serConn (f : α → String) (c : Connection α) : String :=
  serPageInfo c.PageInfo ++ " " ++ toString c.TotalCount ++ " " ++
    serStrList (c.Nodes.map f)

def serUser (u : User) : String :=
  toString u.DatabaseID ++ " " ++ u.ID ++ " " ++ u.Login

def serActor (a : Actor) : String :=
  a.Login ++ " " ++ a.Typename ++ " " ++ serUser a.User

def serMilestone (m : Milestone) : String :=
  m.ID ++ " " ++ m.Title

def serUserExtended (u : UserExtended) : String :=
  String.intercalate " " [u.AvatarURL, u.Bio, u.Company, u.CreatedAt,
    toString u.Followers.TotalCount, toString u.Following.TotalCount,
    toString u.IsHireable, u.URL, toString u.DatabaseID, u.Location,
    u.Login, u.Name, u.ID, toString u.OwnedPrivateRepos.TotalCount,
    toString u.PublicRepos.TotalCount,
    toString u.TotalPrivateRepos.TotalCount, u.UpdatedAt]

def serOrganization (o : Organization) : String :=
  String.intercalate " " [o.OrganizationFields.AvatarURL,
    o.OrganizationFields.CreatedAt, o.OrganizationFields.Description,
    o.OrganizationFields.Email, o.OrganizationFields.URL,
    toString o.OrganizationFields.DatabaseID, o.OrganizationFields.Login,
    o.OrganizationFields.Name, o.OrganizationFields.ID,
    toString o.OrganizationFields.OwnedPrivateRepos.TotalCount,
    toString o.OrganizationFields.PublicRepos.TotalCount,
    toString o.OrganizationFields.TotalPrivateRepos.TotalCount,
    o.OrganizationFields.UpdatedAt,
    serConn serUserExtended o.MembersWithRole]

def serRepositoryFields (r : RepositoryFields) : String :=
  String.intercalate " " [toString r.MergeCommitAllowed,
    toString r.RebaseMergeAllowed, toString r.SquashMergeAllowed,
    toString r.IsArchived, r.CreatedAt, r.DefaultBranchRef.Name,
    r.Description, toString r.IsDisabled, toString r.IsFork,
    toString r.ForkCount, r.NameWithOwner, toString r.HasIssuesEnabled,
    toString r.HasWikiEnabled, r.HomepageURL, r.URL,
    toString r.DatabaseID, r.PrimaryLanguage.Name, r.Name, r.ID,
    toString r.OpenIssues.TotalCount,
    toString r.Owner.Organization.DatabaseID,
    toString r.Owner.User.DatabaseID, r.Owner.Login, r.Owner.Typename,
    toString r.IsPrivate, r.PushedAt, r.SSHURL,
    toString r.Stargazers.TotalCount, r.UpdatedAt,
    toString r.Watchers.TotalCount]

def serLabel (l : Label) : String := l.Name

def serIssueComment (c : IssueComment) : String :=
  String.intercalate " " [c.AuthorAssociation, c.Body, c.CreatedAt,
    c.URL, toString c.DatabaseID, c.ID, c.UpdatedAt, serActor c.Author]

def serClosedBy (c : ClosedByConnection) : String :=
  serStrList (c.Nodes.map (fun n => serActor n.Actor))

def serIssue (i : Issue) : String :=
  String.intercalate " " [i.IssueFields.Body, i.IssueFields.ClosedAt,
    i.IssueFields.CreatedAt, i.IssueFields.URL,
    toString i.IssueFields.DatabaseID, toString i.IssueFields.Locked,
    serMilestone i.IssueFields.Milestone, i.IssueFields.ID,
    toString i.IssueFields.Number, i.IssueFields.State,
    i.IssueFields.Title, i.IssueFields.UpdatedAt,
    serActor i.IssueFields.Author, serConn serUser i.Assignees,
    serConn serLabel i.Labels, serConn serIssueComment i.Comments,
    serClosedBy i.ClosedBy]

def serRef (r : Ref) : String :=
  String.intercalate " " [r.Name, r.Repository.Name,
    r.Repository.OwnerLogin, r.Target.Oid, r.Target.AuthorLogin]

def serPullRequestReviewComment (c : PullRequestReviewComment) : String :=
  String.intercalate " " [c.AuthorAssociation, c.Body, c.Commit.Oid,
    c.CreatedAt, c.DiffHunk, c.URL, toString c.DatabaseID, c.ID,
    c.OriginalCommit.Oid, toString c.OriginalPosition, c.Path,
    toString c.Position, c.UpdatedAt, serActor c.Author]

def serPullRequestReview (r : PullRequestReview) : String :=
  String.intercalate " " [r.PullRequestReviewFields.Body,
    r.PullRequestReviewFields.Commit.Oid, r.PullRequestReviewFields.URL,
    toString r.PullRequestReviewFields.DatabaseID,
    r.PullRequestReviewFields.ID, r.PullRequestReviewFields.State,
    r.PullRequestReviewFields.SubmittedAt,
    serActor r.PullRequestReviewFields.Author,
    serConn serPullRequestReviewComment r.Comments]

def serPullRequest (pr : PullRequest) : String :=
  String.intercalate " " [toString pr.PullRequestFields.Additions,
    pr.PullRequestFields.AuthorAssociation,
    serRef pr.PullRequestFields.BaseRef, pr.PullRequestFields.Body,
    toString pr.PullRequestFields.ChangedFiles,
    pr.PullRequestFields.ClosedAt,
    toString pr.PullRequestFields.Commits.TotalCount,
    pr.PullRequestFields.CreatedAt,
    toString pr.PullRequestFields.Deletions,
    serRef pr.PullRequestFields.HeadRef, pr.PullRequestFields.URL,
    toString pr.PullRequestFields.DatabaseID,
    toString pr.PullRequestFields.MaintainerCanModify,
    pr.PullRequestFields.MergeCommit.Oid, pr.PullRequestFields.Mergeable,
    toString pr.PullRequestFields.Merged, pr.PullRequestFields.MergedAt,
    serActor pr.PullRequestFields.MergedBy,
    serMilestone pr.PullRequestFields.Milestone, pr.PullRequestFields.ID,
    toString pr.PullRequestFields.Number,
    toString pr.PullRequestFields.ReviewThreads.TotalCount,
    pr.PullRequestFields.State, pr.PullRequestFields.Title,
    pr.PullRequestFields.UpdatedAt, serActor pr.PullRequestFields.Author,
    serConn serUser pr.Assignees, serConn serLabel pr.Labels,
    serConn serIssueComment pr.Comments,
    serConn serPullRequestReview pr.Reviews]

/-- Fingerprint used by `SaveOrganization`: `Sprintf("%+v", organization)`. -/
def sum256Organization (o : Organization) : String := serOrganization o

/-- Fingerprint used by `SaveUser`: `Sprintf("%+v", user)`. -/
def sum256User (u : UserExtended) : String := serUserExtended u

/-- Fingerprint used by `SaveRepository`:
`Sprintf("%+v %v", repository, topics)`. -/
def sum256Repository (r : RepositoryFields) (topics : List String) : String :=
  serRepositoryFields r ++ " " ++ serStrList topics

/-- Fingerprint used by `SaveIssue`:
`Sprintf("%v %v %+v %v %v", owner, name, issue, assignees, labels)`. -/
def sum256Issue (repositoryOwner repositoryName : String) (issue : Issue)
    (assignees labels : List String) : String :=
  repositoryOwner ++ " " ++ repositoryName ++ " " ++ serIssue issue ++
    " " ++ serStrList assignees ++ " " ++ serStrList labels

/-- Fingerprint used by `SaveIssueComment`:
`Sprintf("%v %v %v %+v", owner, name, issueNumber, comment)`. -/
def sum256IssueComment (repositoryOwner repositoryName : String)
    (issueNumber : Int) (comment : IssueComment) : String :=
  repositoryOwner ++ " " ++ repositoryName ++ " " ++ toString issueNumber
    ++ " " ++ serIssueComment comment

/-- Fingerprint used by `SavePullRequest`. -/
def sum256PullRequest (repositoryOwner repositoryName : String)
    (pr : PullRequest) (assignees labels : List String) : String :=
  repositoryOwner ++ " " ++ repositoryName ++ " " ++ serPullRequest pr ++
    " " ++ serStrList assignees ++ " " ++ serStrList labels

/-- Fingerprint used by `SavePullRequestReview`. -/
def sum256PullRequestReview (repositoryOwner repositoryName : String)
    (pullRequestNumber : Int) (review : PullRequestReview) : String :=
  repositoryOwner ++ " " ++ repositoryName ++ " " ++
    toString pullRequestNumber ++ " " ++ serPullRequestReview review

/-- Fingerprint used by `SavePullRequestReviewComment`. -/
def sum256PullRequestReviewComment (repositoryOwner repositoryName : String)
    (pullRequestNumber pullRequestReviewId : Int)
    (comment : PullRequestReviewComment) : String :=
  repositoryOwner ++ " " ++ repositoryName ++ " " ++
    toString pullRequestNumber ++ " " ++ toString pullRequestReviewId ++
    " " ++ serPullRequestReviewComment comment

/-! ### Versioned tables and the upsert protocol -/

/-- A row of a `_versioned` table: content fingerprint (primary key),
`versions` array and the canonical payload columns. -/
structure VRow (P : Type) where
  sum256 : String
  versions : List Int
  row : P
deriving DecidableEq

/-- The upsert executed by every `Save…`:
`INSERT … ON CONFLICT (sum256) DO UPDATE SET versions =
array_append(versions, v)`.  On a fresh key the row is inserted with
`versions = array[v]`; on conflict only the `versions` array of the
conflicting row is extended, the payload columns are left as they were. -/
def upsertVersioned (t : List (VRow P)) (key : String) (v : Int)
    (p : P) : List (VRow P) :=
  if t.any (fun r => r.sum256 == key) then
    t.map (fun r =>
      if r.sum256 == key then { r with versions := r.versions ++ [v] } else r)
  else
    t ++ [{ sum256 := key, versions := [v], row := p }]

/-- First Cleanup statement per table:
`DELETE FROM t WHERE v <> ALL(versions)` (a row survives iff not every
entry of its `versions` differs from `v`). -/
def cleanupDelete (v : Int) (t : List (VRow P)) : List (VRow P) :=
  t.filter (fun r => !(r.versions.all (fun x => x != v)))

/-- Second Cleanup statement per table:
`UPDATE t SET versions = array[v]` on every remaining row. -/
def cleanupUpdate (v : Int) (t : List (VRow P)) : List (VRow P) :=
  t.map (fun r => { r with versions := [v] })

/-- Body of the views created by `SetActiveVersion`:
`SELECT <canonical cols> FROM t WHERE v = ANY(versions)`. -/
def viewAtVersion (v : Int) (t : List (VRow P)) : List P :=
  (t.filter (fun r => r.versions.any (fun x => x == v))).map (fun r => r.row)

/-- The eight versioned tables of the relational store. -/
structure Database where
  organizations_versioned : List (VRow OrganizationRow)
  users_versioned : List (VRow UserRow)
  repositories_versioned : List (VRow RepositoryRow)
  issues_versioned : List (VRow IssueRow)
  issue_comments_versioned : List (VRow IssueCommentRow)
  pull_requests_versioned : List (VRow PullRequestRow)
  pull_request_reviews_versioned : List (VRow PullRequestReviewRow)
  pull_request_comments_versioned : List (VRow PullRequestReviewCommentRow)
deriving DecidableEq

/-- `DB.Cleanup(currentVersion)`: iterate the eight tables; on each,
delete the rows whose `versions` does not contain the version, then
rewrite `versions` of every remaining row to the one-element array. -/
def Cleanup (currentVersion : Int) (db : Database) : Database :=
  { organizations_versioned :=
      cleanupUpdate currentVersion
        (cleanupDelete currentVersion db.organizations_versioned)
    users_versioned :=
      cleanupUpdate currentVersion
        (cleanupDelete currentVersion db.users_versioned)
    repositories_versioned :=
      cleanupUpdate currentVersion
        (cleanupDelete currentVersion db.repositories_versioned)
    issues_versioned :=
      cleanupUpdate currentVersion
        (cleanupDelete currentVersion db.issues_versioned)
    issue_comments_versioned :=
      cleanupUpdate currentVersion
        (cleanupDelete currentVersion db.issue_comments_versioned)
    pull_requests_versioned :=
      cleanupUpdate currentVersion
        (cleanupDelete currentVersion db.pull_requests_versioned)
    pull_request_reviews_versioned :=
      cleanupUpdate currentVersion
        (cleanupDelete currentVersion db.pull_request_reviews_versioned)
    pull_request_comments_versioned :=
      cleanupUpdate currentVersion
        (cleanupDelete currentVersion db.pull_request_comments_versioned) }

/-! ### The Save… methods -/

/-- repoOwnerID: switch on the owner `__typename`; note the literal
`"Orgazation"` in the organization case (as in the source). -/
def repoOwnerID (repository : RepositoryFields) : Int :=
  match repository.Owner.Typename with
  | "Orgazation" => repository.Owner.Organization.DatabaseID
  | "User" => repository.Owner.User.DatabaseID
  | _ => 0

/-- Column values bound by `SaveOrganization`. -/
def organizationRowOf (o : Organization) : OrganizationRow :=
  { avatar_url := o.OrganizationFields.AvatarURL
    collaborators := o.MembersWithRole.TotalCount
    created_at := o.OrganizationFields.CreatedAt
    description := o.OrganizationFields.Description
    email := o.OrganizationFields.Email
    htmlurl := o.OrganizationFields.URL
    id := o.OrganizationFields.DatabaseID
    login := o.OrganizationFields.Login
    name := o.OrganizationFields.Name
    node_id := o.OrganizationFields.ID
    owned_private_repos := o.OrganizationFields.OwnedPrivateRepos.TotalCount
    public_repos := o.OrganizationFields.PublicRepos.TotalCount
    total_private_repos := o.OrganizationFields.TotalPrivateRepos.TotalCount
    updated_at := o.OrganizationFields.UpdatedAt }

/-- Column values bound by `SaveUser` (email and the gist counts are
hard-coded in the source, pending API permissions). -/
def userRowOf (orgID : Int) (orgLogin : String) (u : UserExtended) : UserRow :=
  { avatar_url := u.AvatarURL
    bio := u.Bio
    company := u.Company
    created_at := u.CreatedAt
    email := ""
    followers := u.Followers.TotalCount
    following := u.Following.TotalCount
    hireable := u.IsHireable
    htmlurl := u.URL
    id := u.DatabaseID
    location := u.Location
    login := u.Login
    name := u.Name
    node_id := u.ID
    organization_id := orgID
    organization_login := orgLogin
    owned_private_repos := u.OwnedPrivateRepos.TotalCount
    private_gists := 0
    public_gists := 0
    public_repos := u.PublicRepos.TotalCount
    total_private_repos := u.TotalPrivateRepos.TotalCount
    updated_at := u.UpdatedAt }

/-- Column values bound by `SaveRepository`. -/
def repositoryRowOf (repository : RepositoryFields)
    (topics : List String) : RepositoryRow :=
  { allow_merge_commit := repository.MergeCommitAllowed
    allow_rebase_merge := repository.RebaseMergeAllowed
    allow_squash_merge := repository.SquashMergeAllowed
    archived := repository.IsArchived
    created_at := repository.CreatedAt
    default_branch := repository.DefaultBranchRef.Name
    description := repository.Description
    disabled := repository.IsDisabled
    fork := repository.IsFork
    forks_count := repository.ForkCount
    full_name := repository.NameWithOwner
    has_issues := repository.HasIssuesEnabled
    has_wiki := repository.HasWikiEnabled
    homepage := repository.HomepageURL
    htmlurl := repository.URL
    id := repository.DatabaseID
    language := repository.PrimaryLanguage.Name
    name := repository.Name
    node_id := repository.ID
    open_issues_count := repository.OpenIssues.TotalCount
    owner_id := repoOwnerID repository
    owner_login := repository.Owner.Login
    owner_type := repository.Owner.Typename
    is_private := repository.IsPrivate
    pushed_at := repository.PushedAt
    sshurl := repository.SSHURL
    stargazers_count := repository.Stargazers.TotalCount
    topics := topics
    updated_at := repository.UpdatedAt
    watchers_count := repository.Watchers.TotalCount }

/-- The closed-by pair computed by `SaveIssue` from the last CLOSED
timeline event (zero values when there is none). -/
def closedByOf (issue : Issue) : Int × String :=
  match issue.ClosedBy.Nodes with
  | [] => (0, "")
  | n :: _ => (n.Actor.User.DatabaseID, n.Actor.Login)

/-- Column values bound by `SaveIssue`. -/
def issueRowOf (repositoryOwner repositoryName : String) (issue : Issue)
    (assignees labels : List String) : IssueRow :=
  { assignees := assignees
    body := issue.IssueFields.Body
    closed_at := issue.IssueFields.ClosedAt
    closed_by_id := (closedByOf issue).1
    closed_by_login := (closedByOf issue).2
    comments := issue.Comments.TotalCount
    created_at := issue.IssueFields.CreatedAt
    htmlurl := issue.IssueFields.URL
    id := issue.IssueFields.DatabaseID
    labels := labels
    locked := issue.IssueFields.Locked
    milestone_id := issue.IssueFields.Milestone.ID
    milestone_title := issue.IssueFields.Milestone.Title
    node_id := issue.IssueFields.ID
    number := issue.IssueFields.Number
    repository_name := repositoryName
    repository_owner := repositoryOwner
    state := issue.IssueFields.State
    title := issue.IssueFields.Title
    updated_at := issue.IssueFields.UpdatedAt
    user_id := issue.IssueFields.Author.User.DatabaseID
    user_login := issue.IssueFields.Author.Login }

/-- Column values bound by `SaveIssueComment`. -/
def issueCommentRowOf (repositoryOwner repositoryName : String)
    (issueNumber : Int) (comment : IssueComment) : IssueCommentRow :=
  { author_association := comment.AuthorAssociation
    body := comment.Body
    created_at := comment.CreatedAt
    htmlurl := comment.URL
    id := comment.DatabaseID
    issue_number := issueNumber
    node_id := comment.ID
    repository_name := repositoryName
    repository_owner := repositoryOwner
    updated_at := comment.UpdatedAt
    user_id := comment.Author.User.DatabaseID
    user_login := comment.Author.Login }

/-- Column values bound by `SavePullRequest`. -/
def pullRequestRowOf (repositoryOwner repositoryName : String)
    (pr : PullRequest) (assignees labels : List String) : PullRequestRow :=
  { additions := pr.PullRequestFields.Additions
    assignees := assignees
    author_association := pr.PullRequestFields.AuthorAssociation
    base_ref := pr.PullRequestFields.BaseRef.Name
    base_repository_name := pr.PullRequestFields.BaseRef.Repository.Name
    base_repository_owner := pr.PullRequestFields.BaseRef.Repository.OwnerLogin
    base_sha := pr.PullRequestFields.BaseRef.Target.Oid
    base_user := pr.PullRequestFields.BaseRef.Target.AuthorLogin
    body := pr.PullRequestFields.Body
    changed_files := pr.PullRequestFields.ChangedFiles
    closed_at := pr.PullRequestFields.ClosedAt
    comments := pr.Comments.TotalCount
    commits := pr.PullRequestFields.Commits.TotalCount
    created_at := pr.PullRequestFields.CreatedAt
    deletions := pr.PullRequestFields.Deletions
    head_ref := pr.PullRequestFields.HeadRef.Name
    head_repository_name := pr.PullRequestFields.HeadRef.Repository.Name
    head_repository_owner := pr.PullRequestFields.HeadRef.Repository.OwnerLogin
    head_sha := pr.PullRequestFields.HeadRef.Target.Oid
    head_user := pr.PullRequestFields.HeadRef.Target.AuthorLogin
    htmlurl := pr.PullRequestFields.URL
    id := pr.PullRequestFields.DatabaseID
    labels := labels
    maintainer_can_modify := pr.PullRequestFields.MaintainerCanModify
    merge_commit_sha := pr.PullRequestFields.MergeCommit.Oid
    mergeable := pr.PullRequestFields.Mergeable == "MERGEABLE"
    merged := pr.PullRequestFields.Merged
    merged_at := pr.PullRequestFields.MergedAt
    merged_by_id := pr.PullRequestFields.MergedBy.User.DatabaseID
    merged_by_login := pr.PullRequestFields.MergedBy.Login
    milestone_id := pr.PullRequestFields.Milestone.ID
    milestone_title := pr.PullRequestFields.Milestone.Title
    node_id := pr.PullRequestFields.ID
    number := pr.PullRequestFields.Number
    repository_name := repositoryName
    repository_owner := repositoryOwner
    review_comments := pr.PullRequestFields.ReviewThreads.TotalCount
    state := pr.PullRequestFields.State
    title := pr.PullRequestFields.Title
    updated_at := pr.PullRequestFields.UpdatedAt
    user_id := pr.PullRequestFields.Author.User.DatabaseID
    user_login := pr.PullRequestFields.Author.Login }

/-- Column values bound by `SavePullRequestReview`. -/
def pullRequestReviewRowOf (repositoryOwner repositoryName : String)
    (pullRequestNumber : Int) (review : PullRequestReview) :
    PullRequestReviewRow :=
  { body := review.PullRequestReviewFields.Body
    commit_id := review.PullRequestReviewFields.Commit.Oid
    htmlurl := review.PullRequestReviewFields.URL
    id := review.PullRequestReviewFields.DatabaseID
    node_id := review.PullRequestReviewFields.ID
    pull_request_number := pullRequestNumber
    repository_name := repositoryName
    repository_owner := repositoryOwner
    state := review.PullRequestReviewFields.State
    submitted_at := review.PullRequestReviewFields.SubmittedAt
    user_id := review.PullRequestReviewFields.Author.User.DatabaseID
    user_login := review.PullRequestReviewFields.Author.Login }

/-- Column values bound by `SavePullRequestReviewComment`
(`in_reply_to` is hard-coded to 0 in the source). -/
def pullRequestReviewCommentRowOf (repositoryOwner repositoryName : String)
    (pullRequestNumber pullRequestReviewId : Int)
    (comment : PullRequestReviewComment) : PullRequestReviewCommentRow :=
  { author_association := comment.AuthorAssociation
    body := comment.Body
    commit_id := comment.Commit.Oid
    created_at := comment.CreatedAt
    diff_hunk := comment.DiffHunk
    htmlurl := comment.URL
    id := comment.DatabaseID
    in_reply_to := 0
    node_id := comment.ID
    original_commit_id := comment.OriginalCommit.Oid
    original_position := comment.OriginalPosition
    path := comment.Path
    position := comment.Position
    pull_request_number := pullRequestNumber
    pull_request_review_id := pullRequestReviewId
    repository_name := repositoryName
    repository_owner := repositoryOwner
    updated_at := comment.UpdatedAt
    user_id := comment.Author.User.DatabaseID
    user_login := comment.Author.Login }

/-- One insert statement executed inside the open transaction: target
table, fingerprint, the version bound to the statement, and the payload
columns. -/
inductive Write
  | organization (sum256 : String) (version : Int) (row : OrganizationRow)
  | user (sum256 : String) (version : Int) (row : UserRow)
  | repository (sum256 : String) (version : Int) (row : RepositoryRow)
  | issue (sum256 : String) (version : Int) (row : IssueRow)
  | issueComment (sum256 : String) (version : Int) (row : IssueCommentRow)
  | pullRequest (sum256 : String) (version : Int) (row : PullRequestRow)
  | pullRequestReview (sum256 : String) (version : Int)
      (row : PullRequestReviewRow)
  | pullRequestReviewComment (sum256 : String) (version : Int)
      (row : PullRequestReviewCommentRow)
deriving DecidableEq

/-- The version tag carried by a pending write. -/
def Write.version : Write → Int
  | .organization _ v _ => v
  | .user _ v _ => v
  | .repository _ v _ => v
  | .issue _ v _ => v
  | .issueComment _ v _ => v
  | .pullRequest _ v _ => v
  | .pullRequestReview _ v _ => v
  | .pullRequestReviewComment _ v _ => v

/-- Execute one pending insert against the database (the upsert hits the
table named by the statement and no other). -/
def applyWrite (db : Database) : Write → Database
  | .organization key v row =>
    { db with organizations_versioned :=
        upsertVersioned db.organizations_versioned key v row }
  | .user key v row =>
    { db with users_versioned :=
        upsertVersioned db.users_versioned key v row }
  | .repository key v row =>
    { db with repositories_versioned :=
        upsertVersioned db.repositories_versioned key v row }
  | .issue key v row =>
    { db with issues_versioned :=
        upsertVersioned db.issues_versioned key v row }
  | .issueComment key v row =>
    { db with issue_comments_versioned :=
        upsertVersioned db.issue_comments_versioned key v row }
  | .pullRequest key v row =>
    { db with pull_requests_versioned :=
        upsertVersioned db.pull_requests_versioned key v row }
  | .pullRequestReview key v row =>
    { db with pull_request_reviews_versioned :=
        upsertVersioned db.pull_request_reviews_versioned key v row }
  | .pullRequestReviewComment key v row =>
    { db with pull_request_comments_versioned :=
        upsertVersioned db.pull_request_comments_versioned key v row }

/-- The store handle `store.DB`: the shared database, the open
transaction (its pending statements) and the version tag set by
`Version(v)`. -/
structure DB where
  db : Database
  txOpen : Bool
  writes : List Write
  v : Int
deriving DecidableEq

/-- `Begin()`: open a fresh transaction. -/
def Begin (s : DB) : DB := { s with txOpen := true, writes := [] }

/-- `Commit()`: execute the transaction's statements in order against
the shared database and close the transaction. -/
def Commit (s : DB) : DB :=
  { s with db := s.writes.foldl applyWrite s.db, writes := [],
           txOpen := false }

/-- `Rollback()`: discard the transaction's statements. -/
def Rollback (s : DB) : DB := { s with writes := [], txOpen := false }

/-- `Version(v)`: set the version tag for subsequent writes. -/
def Version (s : DB) (v : Int) : DB := { s with v := v }

def SaveOrganization (s : DB) (organization : Organization) : DB :=
  { s with writes := s.writes ++
      [Write.organization (sum256Organization organization) s.v
        (organizationRowOf organization)] }

def SaveUser (s : DB) (orgID : Int) (orgLogin : String)
    (user : UserExtended) : DB :=
  { s with writes := s.writes ++
      [Write.user (sum256User user) s.v (userRowOf orgID orgLogin user)] }

def SaveRepository (s : DB) (repository : RepositoryFields)
    (topics : List String) : DB :=
  { s with writes := s.writes ++
      [Write.repository (sum256Repository repository topics) s.v
        (repositoryRowOf repository topics)] }

def SaveIssue (s : DB) (repositoryOwner repositoryName : String)
    (issue : Issue) (assignees labels : List String) : DB :=
  { s with writes := s.writes ++
      [Write.issue (sum256Issue repositoryOwner repositoryName issue assignees labels)
        s.v (issueRowOf repositoryOwner repositoryName issue assignees labels)] }

def SaveIssueComment (s : DB) (repositoryOwner repositoryName : String)
    (issueNumber : Int) (comment : IssueComment) : DB :=
  { s with writes := s.writes ++
      [Write.issueComment
        (sum256IssueComment repositoryOwner repositoryName issueNumber comment)
        s.v (issueCommentRowOf repositoryOwner repositoryName issueNumber comment)] }

def SavePullRequest (s : DB) (repositoryOwner repositoryName : String)
    (pr : PullRequest) (assignees labels : List String) : DB :=
  { s with writes := s.writes ++
      [Write.pullRequest
        (sum256PullRequest repositoryOwner repositoryName pr assignees labels)
        s.v (pullRequestRowOf repositoryOwner repositoryName pr assignees labels)] }

/-- `SavePullRequestComment` delegates to `SaveIssueComment`: both issue
and PR comments land in the `issue_comments` table. -/
def SavePullRequestComment (s : DB) (repositoryOwner repositoryName : String)
    (pullRequestNumber : Int) (comment : IssueComment) : DB :=
  SaveIssueComment s repositoryOwner repositoryName pullRequestNumber comment

def SavePullRequestReview (s : DB) (repositoryOwner repositoryName : String)
    (pullRequestNumber : Int) (review : PullRequestReview) : DB :=
  { s with writes := s.writes ++
      [Write.pullRequestReview
        (sum256PullRequestReview repositoryOwner repositoryName pullRequestNumber review)
        s.v (pullRequestReviewRowOf repositoryOwner repositoryName pullRequestNumber review)] }

def SavePullRequestReviewComment (s : DB)
    (repositoryOwner repositoryName : String)
    (pullRequestNumber pullRequestReviewId : Int)
    (comment : PullRequestReviewComment) : DB :=
  { s with writes := s.writes ++
      [Write.pullRequestReviewComment
        (sum256PullRequestReviewComment repositoryOwner repositoryName
          pullRequestNumber pullRequestReviewId comment)
        s.v (pullRequestReviewCommentRowOf repositoryOwner repositoryName
          pullRequestNumber pullRequestReviewId comment)] }

end store

namespace github

open graphql

/-! ### The traversal

`Downloader` methods run against the storer and the GraphQL client.  The
computation is embedded in a state-plus-error monad over the store
handle: on error the state (with its pending writes) is kept, exactly as
in Go, where the deferred commit-or-rollback then decides its fate.  The
GraphQL client is an oracle (`Client`) supplying the initial query result
and, per connection, the successive page queries; a page query is a
function of the bound `(pageVar, cursorVar)` variables.  Database
statement failures are injected by the oracle `saveError`, keyed by the
number of statements already executed inside the open transaction. -/

def M (α : Type) : Type := store.DB → Except String α × store.DB

instance : Monad M where
  pure a := fun s => (Except.ok a, s)
  bind x f := fun s =>
    match x s with
    | (Except.ok a, s') => f a s'
    | (Except.error e, s') => (Except.error e, s')

def liftEx (x : Except String α) : M α := fun s => (x, s)

def throwM (e : String) : M α := fun s => (Except.error e, s)

/-- Error wrapping, `fmt.Errorf(ctx + err)`. -/
def wrapE (ctx : String) : Except String α → Except String α
  | Except.ok a => Except.ok a
  | Except.error e => Except.error (ctx ++ e)

/-- Wrap the error of a sub-computation with context. -/
def wrapM (ctx : String) (m : M α) : M α := fun s =>
  match m s with
  | (Except.ok a, s') => (Except.ok a, s')
  | (Except.error e, s') => (Except.error (ctx ++ e), s')

/-- Run the given nodes through a per-node action, stopping at the first
error (the `for … range nodes` loops of the processors). -/
def processList (f : α → M Unit) : List α → M Unit
  | [] => pure ()
  | x :: xs => do
    f x
    processList f xs

/-- A pagination query for one connection: given the values bound to the
page-size and cursor variables, the server's reply. -/
def PageFetch (α : Type) : Type := Int → String → Except String (Connection α)

/-- The GraphQL client oracle: the reply to the initial repository or
organization query, the successive pagination replies of each connection
(keyed by the parent node id where the re-query is `node(id:$id)`), and
the injected database error, if any, for the n-th statement of the
transaction. -/
structure Client where
  repositoryQuery : Except String Repository
  organizationQuery : Except String Organization
  topicsPages : List (PageFetch TopicNode)
  issuesPages : List (PageFetch Issue)
  pullRequestsPages : List (PageFetch PullRequest)
  issueAssigneesPages : String → List (PageFetch User)
  issueLabelsPages : String → List (PageFetch Label)
  issueCommentsPages : String → List (PageFetch IssueComment)
  prAssigneesPages : String → List (PageFetch User)
  prLabelsPages : String → List (PageFetch Label)
  prCommentsPages : String → List (PageFetch IssueComment)
  prReviewsPages : String → List (PageFetch PullRequestReview)
  reviewCommentsPages : String → List (PageFetch PullRequestReviewComment)
  membersPages : List (PageFetch UserExtended)
  saveError : Nat → Option String

/-- Execute one `Save…` statement: if the oracle injects a database
error for this statement the store is left untouched and the error is
surfaced; otherwise the statement joins the open transaction. -/
def trySave (c : Client) (f : store.DB → store.DB) : M Unit := fun s =>
  match c.saveError s.writes.length with
  | some e => (Except.error e, s)
  | none => (Except.ok (), f s)

/-- The `for res.GetPageInfo().HasNextPage` loop of
`downloadConnection`: accumulate the count, bind the page-size and
cursor variables, query, process.  The processor threads an accumulator
(the closure-captured state of the Go processors). -/
def downloadConnectionLoop (t : connectionType)
    (process : Connection β → σ → M σ) :
    List (PageFetch β) → Connection β → Int → σ → M σ
  | [], res, _, acc =>
    if res.GetPageInfo.HasNextPage then
      throwM ("query to " ++ t.Name ++ " failed: no further page")
    else pure acc
  | fetch :: rest, res, count, acc =>
    if res.GetPageInfo.HasNextPage then do
      let count := count + res.Len
      let next ← liftEx (wrapE ("query to " ++ t.Name ++ " failed: ")
        (fetch (getPerPage res.GetTotalCount count t.PageSize (connectionLimit t))
          res.GetPageInfo.EndCursor))
      let acc ← wrapM ("can not process " ++ t.Name ++ ": ") (process next acc)
      downloadConnectionLoop t process rest next count acc
    else pure acc

/-- `downloadConnection`: process the already-loaded first page, then
walk the remaining pages.  The supplied page list is the stream of
replies the server would give; running out of it while `has_next_page`
still holds is a failing query. -/
def downloadConnection (t : connectionType) (fetch : List (PageFetch β))
    (res : Connection β) (process : Connection β → σ → M σ) (acc : σ) :
    M σ := do
  let acc ← wrapM ("can not process " ++ t.Name ++ ": ") (process res acc)
  downloadConnectionLoop t process fetch res 0 acc

def downloadTopics (c : Client) (repository : Repository) : M (List String) :=
  downloadConnection topicsType c.topicsPages repository.RepositoryTopics
    (fun conn names => pure (names ++ conn.Nodes.map (fun n => n.Topic.Name)))
    []

def downloadIssueAssignees (c : Client) (issue : Issue) : M (List String) :=
  downloadConnection assigneesType
    (c.issueAssigneesPages issue.IssueFields.ID) issue.Assignees
    (fun conn logins => pure (logins ++ conn.Nodes.map (fun n => n.Login))) []

def downloadIssueLabels (c : Client) (issue : Issue) : M (List String) :=
  downloadConnection labelsType
    (c.issueLabelsPages issue.IssueFields.ID) issue.Labels
    (fun conn names => pure (names ++ conn.Nodes.map (fun n => n.Name))) []

def downloadIssueComments (c : Client) (owner name : String)
    (issue : Issue) : M Unit :=
  downloadConnection issueCommentsType
    (c.issueCommentsPages issue.IssueFields.ID) issue.Comments
    (fun conn _ => processList (fun comment =>
      trySave c (fun s => store.SaveIssueComment s owner name
        issue.IssueFields.Number comment)) conn.Nodes) ()

def downloadIssues (c : Client) (owner name : String)
    (repository : Repository) : M Unit :=
  downloadConnection issuesType c.issuesPages repository.Issues
    (fun conn _ => processList (fun issue => do
      let assignees ← downloadIssueAssignees c issue
      let labels ← downloadIssueLabels c issue
      trySave c (fun s => store.SaveIssue s owner name issue assignees labels)
      downloadIssueComments c owner name issue) conn.Nodes) ()

def downloadPullRequestAssignees (c : Client) (pr : PullRequest) :
    M (List String) :=
  downloadConnection assigneesType
    (c.prAssigneesPages pr.PullRequestFields.ID) pr.Assignees
    (fun conn logins => pure (logins ++ conn.Nodes.map (fun n => n.Login))) []

def downloadPullRequestLabels (c : Client) (pr : PullRequest) :
    M (List String) :=
  downloadConnection labelsType
    (c.prLabelsPages pr.PullRequestFields.ID) pr.Labels
    (fun conn names => pure (names ++ conn.Nodes.map (fun n => n.Name))) []

def downloadPullRequestComments (c : Client) (owner name : String)
    (pr : PullRequest) : M Unit :=
  downloadConnection issueCommentsType
    (c.prCommentsPages pr.PullRequestFields.ID) pr.Comments
    (fun conn _ => processList (fun comment =>
      wrapM ("failed to save PR comments for PR " ++
          toString pr.PullRequestFields.Number ++ ": ")
        (trySave c (fun s => store.SavePullRequestComment s owner name
          pr.PullRequestFields.Number comment))) conn.Nodes) ()

def downloadReviewComments (c : Client)
    (repositoryOwner repositoryName : String) (pullRequestNumber : Int)
    (review : PullRequestReview) : M Unit :=
  downloadConnection pullRequestReviewCommentsType
    (c.reviewCommentsPages review.PullRequestReviewFields.ID)
    review.Comments
    (fun conn _ => processList (fun comment =>
      wrapM ("failed to save PullRequestReviewComment for PR " ++
          toString pullRequestNumber ++ ": ")
        (trySave c (fun s => store.SavePullRequestReviewComment s
          repositoryOwner repositoryName pullRequestNumber
          review.PullRequestReviewFields.DatabaseID comment))) conn.Nodes) ()

def downloadPullRequestReviews (c : Client) (owner name : String)
    (pr : PullRequest) : M Unit :=
  downloadConnection pullRequestReviewsType
    (c.prReviewsPages pr.PullRequestFields.ID) pr.Reviews
    (fun conn _ => processList (fun review => do
      wrapM ("failed to save PR review for PR " ++
          toString pr.PullRequestFields.Number ++ ": ")
        (trySave c (fun s => store.SavePullRequestReview s owner name
          pr.PullRequestFields.Number review))
      downloadReviewComments c owner name pr.PullRequestFields.Number review)
      conn.Nodes) ()

def downloadPullRequests (c : Client) (owner name : String)
    (repository : Repository) : M Unit :=
  downloadConnection pullRequestsType c.pullRequestsPages
    repository.PullRequests
    (fun conn _ => processList (fun pr => do
      let assignees ← downloadPullRequestAssignees c pr
      let labels ← downloadPullRequestLabels c pr
      trySave c (fun s => store.SavePullRequest s owner name pr assignees labels)
      downloadPullRequestComments c owner name pr
      downloadPullRequestReviews c owner name pr) conn.Nodes) ()

/-- The body of `DownloadRepository` between `Begin` and the deferred
commit-or-rollback: initial query, topics, `SaveRepository`, issues,
pull requests. -/
def downloadRepositoryBody (c : Client) (owner name : String) : M Unit := do
  let repository ← liftEx (wrapE "first query failed: " c.repositoryQuery)
  let topics ← downloadTopics c repository
  wrapM ("failed to save repository " ++
      repository.RepositoryFields.NameWithOwner ++ ": ")
    (trySave c (fun s =>
      store.SaveRepository s repository.RepositoryFields topics))
  downloadIssues c owner name repository
  downloadPullRequests c owner name repository

/-- `Downloader.DownloadRepository(ctx, owner, name, version)`: set the
version, open the transaction (`Begin` is modelled as succeeding; on a
`Begin` failure Go returns before any transaction exists), run the body,
and let the deferred function commit on success or roll back on any
error. -/
def DownloadRepository (c : Client) (owner name : String) (version : Int)
    (s : store.DB) : Except String Unit × store.DB :=
  let s := store.Version s version
  let s := store.Begin s
  match downloadRepositoryBody c owner name s with
  | (Except.ok _, s1) => (Except.ok (), store.Commit s1)
  | (Except.error e, s1) => (Except.error e, store.Rollback s1)

def downloadUsers (c : Client) (name : String)
    (organization : Organization) : M Unit :=
  downloadConnection membersWithRole c.membersPages
    organization.MembersWithRole
    (fun conn _ => processList (fun user =>
      wrapM "failed to save UserExtended: "
        (trySave c (fun s => store.SaveUser s
          organization.OrganizationFields.DatabaseID
          organization.OrganizationFields.Login user))) conn.Nodes) ()

/-- The body of `DownloadOrganization` between `Begin` and the deferred
commit-or-rollback. -/
def downloadOrganizationBody (c : Client) (name : String) : M Unit := do
  let organization ← liftEx (wrapE "organization query failed: "
    c.organizationQuery)
  wrapM ("failed to save organization " ++ name ++ ": ")
    (trySave c (fun s => store.SaveOrganization s organization))
  downloadUsers c name organization

/-- `Downloader.DownloadOrganization(ctx, name, version)`. -/
def DownloadOrganization (c : Client) (name : String) (version : Int)
    (s : store.DB) : Except String Unit × store.DB :=
  let s := store.Version s version
  let s := store.Begin s
  match downloadOrganizationBody c name s with
  | (Except.ok _, s1) => (Except.ok (), store.Commit s1)
  | (Except.error e, s1) => (Except.error e, store.Rollback s1)

end github

namespace github

/-! ### Transport stack

An HTTP response is modelled with its status, the typed headers the
middleware reads (carried already parsed: `none` stands for a missing or
unparseable header, matching the `strconv.Atoi` guards), the raw body,
and the result of `json.Unmarshal`-ing the body into an
`apiErrorResponse` (`none` when the body is not such a document).  Times
are integer seconds. -/

/-- apiErrorResponse: the error document of the API. -/
structure apiErrorResponse where
  Message : String
  DocumentationURL : String
deriving DecidableEq, Inhabited

/-- Substring test, `strings.Contains`. -/
def strContains (s pat : String) : Bool :=
  s.toList.tails.any (fun t => pat.toList.isPrefixOf t)

/-- `apiErrorResponse.isAbuseRateLimit`: the documentation URL mentions
"abuse" or the message mentions "abuse detection". -/
def isAbuseRateLimit (aer : apiErrorResponse) : Bool :=
  strContains aer.DocumentationURL "abuse" ||
    strContains aer.Message "abuse detection"

/-- An HTTP response as seen by the middleware. -/
structure Response where
  StatusCode : Int
  Status : String
  RetryAfter : Option Int
  RateLimitRemaining : Option Int
  RateLimitReset : Option Int
  Body : String
  BodyJSON : Option apiErrorResponse
deriving DecidableEq, Inhabited

/-- The typed errors produced by the transport stack. -/
inductive HTTPError
  | canceled
  | unauthorized (message : String)
  | rateLimit (retryAfter : Int)
  | abuseRateLimit (retryAfter : Int)
  | jsonError (status : Int)
  | transportError (message : String)
  | statusError (status : String) (body : String)
deriving DecidableEq

/-- `defaultAbuseRetryAfter`, used when an abuse is detected but the
response carries no Retry-After header (60 seconds). -/
def defaultAbuseRetryAfter : Int := 60

/-- asErrRateLimit: when both `X-RateLimit-Reset` and
`X-RateLimit-Remaining` parse and the remaining count is zero, a
rate-limit error whose retry-after time is reset+1s. -/
def asErrRateLimit (resp : Response) : Option Int :=
  match resp.RateLimitReset with
  | none => none
  | some rateLimitReset =>
    match resp.RateLimitRemaining with
    | none => none
    | some rateLimitRemaining =>
      if rateLimitRemaining = 0 then some (rateLimitReset + 1) else none

/-- asErrAbuseRateLimit: on a 403, a parsed `Retry-After` of n seconds
yields an abuse error retrying at now+n; otherwise, when the body reads
as an abuse document, the default sleep is applied; any other 403 yields
nothing (logged and passed through). -/
def asErrAbuseRateLimit (now defaultSleep : Int) (resp : Response) :
    Option Int :=
  if resp.StatusCode ≠ 403 then none
  else
    match resp.RetryAfter with
    | some retryIn => some (now + retryIn)
    | none =>
      match resp.BodyJSON with
      | some errorResponse =>
        if isAbuseRateLimit errorResponse then some (now + defaultSleep)
        else none
      | none => none

/-- checkResponseRateLimit: the rate-limit check runs before the abuse
check; the result carries the error and its retry-after deadline. -/
def checkResponseRateLimit (now defaultSleep : Int) (resp : Response) :
    Option (HTTPError × Int) :=
  match asErrRateLimit resp with
  | some t => some (HTTPError.rateLimit t, t)
  | none =>
    match asErrAbuseRateLimit now defaultSleep resp with
    | some t => some (HTTPError.abuseRateLimit t, t)
    | none => none

/-- checkResponseUnauth: a 401 whose body parses as an error document
becomes `ErrUnauthorized` with the server message; when the body does
not parse, the read error itself is returned. -/
def checkResponseUnauth (resp : Response) : Option HTTPError :=
  if resp.StatusCode = 401 then
    match resp.BodyJSON with
    | some errorResponse => some (HTTPError.unauthorized errorResponse.Message)
    | none => some (HTTPError.jsonError resp.StatusCode)
  else none

/-- The per-credential interceptor state: the locked-until timestamp and
the configured default abuse sleep. -/
structure RateLimitTransport where
  lockedUntil : Int
  defaultAbuseSleep : Int
deriving DecidableEq, Inhabited

/-- What the wrapped transport did for one request. -/
inductive TransportResult
  | failure (e : HTTPError)
  | response (resp : Response)
deriving DecidableEq

/-- Outcome of one `RateLimitTransport.RoundTrip`: the updated
interceptor state, the time at which the request was actually forwarded
(the call first sleeps while `now < lockedUntil`), and the returned
response and error. -/
structure RLOutcome where
  state : RateLimitTransport
  forwardedAt : Int
  response : Option Response
  error : Option HTTPError
deriving DecidableEq

/-- `RateLimitTransport.RoundTrip`: sleep until `lockedUntil` when it
lies in the future, forward, then inspect the response: transport errors
pass through; a 401 becomes `ErrUnauthorized`; a rate-limit or abuse
signal records its deadline in `lockedUntil` and surfaces the typed
error; anything else passes through unchanged. -/
def RateLimitTransport.RoundTrip (rt : RateLimitTransport) (now : Int)
    (inner : TransportResult) : RLOutcome :=
  let t := max now rt.lockedUntil
  match inner with
  | TransportResult.failure e =>
    { state := rt, forwardedAt := t, response := none, error := some e }
  | TransportResult.response resp =>
    match checkResponseUnauth resp with
    | some e =>
      { state := rt, forwardedAt := t, response := some resp, error := some e }
    | none =>
      match checkResponseRateLimit t rt.defaultAbuseSleep resp with
      | some (e, whenT) =>
        { state := { rt with lockedUntil := whenT }, forwardedAt := t,
          response := some resp, error := some e }
      | none =>
        { state := rt, forwardedAt := t, response := some resp, error := none }

/-! ### Retry transport

`retryTransport.RoundTrip` buffers the request body, then runs the
operation under `backoff.RetryNotify` with
`WithMaxRetries(policy, maxRetries)`: the operation is invoked, a nil
error stops the loop, a permanent error (cancellation or
`*ErrUnauthorized`) stops it immediately, and a transient error is
retried until the operation has been attempted `maxRetries + 1` times in
total, after which the last error surfaces. -/

/-- How the retry operation classifies one attempt. -/
inductive AttemptOutcome
  | ok
  | permanentErr (e : HTTPError)
  | transientErr (e : HTTPError)
deriving DecidableEq

/-- The `do` closure of `retryTransport.RoundTrip`: `context.Canceled`
and `*ErrUnauthorized` are permanent; any other transport error is
transient; a response with status at least 500 is a transient error carrying
the status line and the response body; anything else succeeds. -/
def doAttempt : Except HTTPError Response → AttemptOutcome
  | Except.error HTTPError.canceled => AttemptOutcome.permanentErr HTTPError.canceled
  | Except.error (HTTPError.unauthorized m) =>
    AttemptOutcome.permanentErr (HTTPError.unauthorized m)
  | Except.error e => AttemptOutcome.transientErr e
  | Except.ok resp =>
    if resp.StatusCode ≥ 500 then
      AttemptOutcome.transientErr (HTTPError.statusError resp.Status resp.Body)
    else AttemptOutcome.ok

def maxRetries : Nat := 10

/-- The retry loop with `remaining` retries left: attempt number `i` is
performed; on success or a permanent error the loop stops; a transient
error consumes one retry, and with none left the error surfaces.  The
result is the total number of attempts performed and the final error. -/
def retryAux (op : Nat → AttemptOutcome) (i : Nat) :
    Nat → Nat × Option HTTPError
  | 0 =>
    match op i with
    | AttemptOutcome.ok => (i + 1, none)
    | AttemptOutcome.permanentErr e => (i + 1, some e)
    | AttemptOutcome.transientErr e => (i + 1, some e)
  | remaining + 1 =>
    match op i with
    | AttemptOutcome.ok => (i + 1, none)
    | AttemptOutcome.permanentErr e => (i + 1, some e)
    | AttemptOutcome.transientErr e => retryAux op (i + 1) remaining

/-- `retry(operation)` with the default `maxRetries`: the number of
attempts performed and the surfaced error, if any. -/
def retryRun (op : Nat → AttemptOutcome) : Nat × Option HTTPError :=
  retryAux op 0 maxRetries

/-- One attempt of the full stack: the retry layer invokes the
rate-limit transport (one connection attempt) and classifies what comes
back. -/
def stackAttempt (rt : RateLimitTransport) (now : Int)
    (inner : TransportResult) : AttemptOutcome :=
  let out := RateLimitTransport.RoundTrip rt now inner
  match out.error with
  | some e => doAttempt (Except.error e)
  | none =>
    match out.response with
    | some resp => doAttempt (Except.ok resp)
    | none => AttemptOutcome.ok

end github

/-! ### Concrete inputs used by witnesses and counterexamples -/

/-- A database with all eight tables empty. -/
def emptyDatabase : store.Database := ⟨[], [], [], [], [], [], [], []⟩

/-- A fresh store handle over the empty database. -/
def exampleDB : store.DB :=
  { db := emptyDatabase, txOpen := false, writes := [], v := 0 }

/-- A client whose initial queries succeed with the zero-valued objects
and whose connections all fit in their first page. -/
def exampleClient : github.Client :=
  { repositoryQuery := Except.ok default
    organizationQuery := Except.ok default
    topicsPages := []
    issuesPages := []
    pullRequestsPages := []
    issueAssigneesPages := fun _ => []
    issueLabelsPages := fun _ => []
    issueCommentsPages := fun _ => []
    prAssigneesPages := fun _ => []
    prLabelsPages := fun _ => []
    prCommentsPages := fun _ => []
    prReviewsPages := fun _ => []
    reviewCommentsPages := fun _ => []
    membersPages := []
    saveError := fun _ => none }

/-- A client whose initial queries fail. -/
def failingClient : github.Client :=
  { exampleClient with
    repositoryQuery := Except.error "boom"
    organizationQuery := Except.error "boom" }

/-- A rate-limit interceptor in its initial state, with the default
abuse sleep. -/
def rt0 : github.RateLimitTransport :=
  { lockedUntil := 0, defaultAbuseSleep := github.defaultAbuseRetryAfter }

/-- A 502 response. -/
def resp502 : github.Response :=
  { StatusCode := 502, Status := "502 Bad Gateway", RetryAfter := none
    RateLimitRemaining := none, RateLimitReset := none
    Body := "server overloaded", BodyJSON := none }

/-- A 401 response with a parseable error body. -/
def resp401 : github.Response :=
  { StatusCode := 401, Status := "401 Unauthorized", RetryAfter := none
    RateLimitRemaining := none, RateLimitReset := none
    Body := "bad credentials json"
    BodyJSON := some { Message := "Bad credentials", DocumentationURL := "" } }

/-- A 401 response that also carries exhausted rate-limit headers. -/
def resp401WithRateHeaders : github.Response :=
  { resp401 with RateLimitRemaining := some 0, RateLimitReset := some 100 }

/-- A 200 response whose headers signal rate-limit exhaustion resetting
at 100. -/
def respRateLimited : github.Response :=
  { StatusCode := 200, Status := "200 OK", RetryAfter := none
    RateLimitRemaining := some 0, RateLimitReset := some 100
    Body := "", BodyJSON := none }

/-- A 403 response with a Retry-After header of 10 seconds. -/
def resp403RetryAfter10 : github.Response :=
  { StatusCode := 403, Status := "403 Forbidden", RetryAfter := some 10
    RateLimitRemaining := none, RateLimitReset := none
    Body := "", BodyJSON := none }

/-- A 403 response with a Retry-After header of 30 seconds. -/
def resp403RetryAfter30 : github.Response :=
  { resp403RetryAfter10 with RetryAfter := some 30 }

/-- A repository whose owner discriminator is the value the forge
returns for organization-owned repositories. -/
def orgOwnedRepository : graphql.RepositoryFields :=
  { (default : graphql.RepositoryFields) with Owner :=
      { Organization := { DatabaseID := 7 }, User := { DatabaseID := 0 }
        Login := "acme", Typename := "Organization" } }

/-! ### Proof-layer predicates -/

/-- A traversal step only appends writes (tagged with the current
version) to the open transaction: the committed database and the
version tag are untouched. -/
def TxStep {α : Type} (m : github.M α) : Prop :=
  ∀ s, ((m s).2).db = s.db ∧ ((m s).2).v = s.v ∧
    ∃ ws, ((m s).2).writes = s.writes ++ ws ∧
      ∀ w ∈ ws, store.Write.version w = s.v

/-- Shape of a `Save…` state change: pending writes tagged with the
current version are appended, nothing else moves. -/
def SaveShape (f : store.DB → store.DB) : Prop :=
  ∀ s, (f s).db = s.db ∧ (f s).v = s.v ∧
    ∃ ws, (f s).writes = s.writes ++ ws ∧
      ∀ w ∈ ws, store.Write.version w = s.v

section Proofs

open github store graphql

/-! ### Helper lemmas about the versioned tables -/

lemma cleanupTable_eq {P : Type} (v : Int) (t : List (VRow P)) :
    cleanupUpdate v (cleanupDelete v t) =
      (t.filter (fun r => decide (v ∈ r.versions))).map
        (fun r => { r with versions := [v] }) := by
  unfold cleanupUpdate cleanupDelete
  congr 1
  apply List.filter_congr
  intro r _
  by_cases h : v ∈ r.versions
  · rw [decide_eq_true h, Bool.not_eq_true', List.all_eq_false]
    exact ⟨v, h, by simp⟩
  · rw [decide_eq_false h, Bool.not_eq_false', List.all_eq_true]
    intro x hx
    simp only [bne_iff_ne, ne_eq]
    exact fun hxv => h (hxv ▸ hx)

lemma any_beq_append_self (vs : List Int) (v w : Int) (hv : v ∈ vs) :
    (vs ++ [v]).any (fun x => x == w) = vs.any (fun x => x == w) := by
  by_cases hvw : v = w
  · subst hvw
    have h1 : vs.any (fun x => x == v) = true := List.any_eq_true.mpr ⟨v, hv, by simp⟩
    simp [List.any_append, h1]
  · simp [List.any_append, hvw]

lemma upsert_mem_key {P : Type} (t : List (VRow P)) (key : String) (v : Int) (p : P) :
    (upsertVersioned t key v p).any (fun r => r.sum256 == key) = true := by
  unfold upsertVersioned
  split_ifs with h
  · rw [List.any_map]
    rw [List.any_eq_true] at h ⊢
    obtain ⟨r, hr, hk⟩ := h
    refine ⟨r, hr, ?_⟩
    simp only [Function.comp]
    rw [if_pos hk]
    simpa using hk
  · simp [List.any_append]

lemma upsert_key_has_v {P : Type} (t : List (VRow P)) (key : String) (v : Int) (p : P) :
    ∀ r ∈ upsertVersioned t key v p, r.sum256 = key → v ∈ r.versions := by
  unfold upsertVersioned
  split_ifs with h
  · intro r hr hk
    rw [List.mem_map] at hr
    obtain ⟨r0, hr0, hfr⟩ := hr
    by_cases h0 : r0.sum256 == key
    · rw [if_pos h0] at hfr
      rw [← hfr]
      simp
    · rw [if_neg h0] at hfr
      rw [← hfr] at hk
      exact absurd (by simpa using hk) (by simpa using h0)
  · intro r hr hk
    rcases List.mem_append.mp hr with h1 | h2
    · exact absurd (List.any_eq_true.mpr ⟨r, h1, by simp [hk]⟩) h
    · have : r = { sum256 := key, versions := [v], row := p } := by simpa using h2
      rw [this]
      simp

lemma map_sum256_upd {P : Type} (key : String) (v : Int) (l : List (VRow P)) :
    (l.map (fun r => if r.sum256 == key then { r with versions := r.versions ++ [v] } else r)).map
        (fun r => r.sum256) =
      l.map (fun r => r.sum256) := by
  induction l with
  | nil => rfl
  | cons r rest ih =>
    simp only [List.map_cons, ih, List.cons.injEq, and_true]
    by_cases hk : r.sum256 == key
    · rw [if_pos hk]
    · rw [if_neg hk]

lemma map_row_upd {P : Type} (key : String) (v : Int) (l : List (VRow P)) :
    (l.map (fun r => if r.sum256 == key then { r with versions := r.versions ++ [v] } else r)).map
        (fun r => r.row) =
      l.map (fun r => r.row) := by
  induction l with
  | nil => rfl
  | cons r rest ih =>
    simp only [List.map_cons, ih, List.cons.injEq, and_true]
    by_cases hk : r.sum256 == key
    · rw [if_pos hk]
    · rw [if_neg hk]

lemma view_upd {P : Type} (w v : Int) (key : String) (l : List (VRow P))
    (hl : ∀ r ∈ l, r.sum256 = key → v ∈ r.versions) :
    viewAtVersion w
        (l.map (fun r => if r.sum256 == key then { r with versions := r.versions ++ [v] } else r)) =
      viewAtVersion w l := by
  induction l with
  | nil => rfl
  | cons r rest ih =>
    have ih' := ih (fun r hr => hl r (List.mem_cons_of_mem _ hr))
    unfold viewAtVersion at ih' ⊢
    simp only [List.map_cons, List.filter_cons]
    by_cases hk : r.sum256 == key
    · have hv : v ∈ r.versions := hl r (List.mem_cons_self _ _) (by simpa using hk)
      rw [if_pos hk]
      have hany : (({ r with versions := r.versions ++ [v] } : VRow P).versions.any
          (fun x => x == w)) = r.versions.any (fun x => x == w) :=
        any_beq_append_self r.versions v w hv
      by_cases hw : r.versions.any (fun x => x == w)
      · rw [if_pos (by rw [hany]; exact hw), if_pos hw]
        simp only [List.map_cons, ih']
      · rw [if_neg (by rw [hany]; exact hw), if_neg hw]
        exact ih'
    · rw [if_neg hk]
      by_cases hw : r.versions.any (fun x => x == w)
      · rw [if_pos hw, if_pos hw]
        simp only [List.map_cons, ih']
      · rw [if_neg hw, if_neg hw]
        exact ih'

lemma upsert_hit_eq_map {P : Type} (t1 : List (VRow P)) (key : String) (v : Int) (p : P)
    (h : t1.any (fun r => r.sum256 == key) = true) :
    upsertVersioned t1 key v p =
      t1.map (fun r => if r.sum256 == key then { r with versions := r.versions ++ [v] } else r) := by
  unfold upsertVersioned
  rw [if_pos h]

lemma upsert_twice_eq_map {P : Type} (t : List (VRow P)) (key : String) (v : Int) (p : P) :
    upsertVersioned (upsertVersioned t key v p) key v p =
      (upsertVersioned t key v p).map
        (fun r => if r.sum256 == key then { r with versions := r.versions ++ [v] } else r) :=
  upsert_hit_eq_map _ key v p (upsert_mem_key t key v p)

/-! ### Helper lemmas about the traversal monad -/

lemma txstep_nilWrites {α : Type} (m : github.M α)
    (h : ∀ s, ((m s).2) = s) : TxStep m := by
  intro s
  rw [h s]
  exact ⟨rfl, rfl, [], (List.append_nil s.writes).symm,
    fun w hw => absurd hw (List.not_mem_nil w)⟩

lemma txstep_pure {α : Type} (a : α) : TxStep (pure a : github.M α) :=
  txstep_nilWrites _ (fun _ => rfl)

lemma txstep_bind {α β : Type} {x : github.M α} {f : α → github.M β}
    (hx : TxStep x) (hf : ∀ a, TxStep (f a)) : TxStep (x >>= f) := by
  intro s
  have hb : (x >>= f) s = match x s with
    | (Except.ok a, s') => f a s'
    | (Except.error e, s') => (Except.error e, s') := rfl
  rcases hxs : x s with ⟨r, s1⟩
  have h1 := hx s
  rw [hxs] at h1
  rcases r with e | a
  · rw [hb, hxs]
    exact h1
  · rw [hb, hxs]
    have h2 := (hf a) s1
    obtain ⟨hdb1, hv1, ws1, hw1, hver1⟩ := h1
    obtain ⟨hdb2, hv2, ws2, hw2, hver2⟩ := h2
    refine ⟨by rw [hdb2]; exact hdb1, by rw [hv2]; exact hv1, ws1 ++ ws2, ?_, ?_⟩
    · rw [hw2, hw1, List.append_assoc]
    · intro w hw
      rcases List.mem_append.mp hw with h | h
      · exact hver1 w h
      · rw [hver2 w h, hv1]

lemma txstep_liftEx {α : Type} (x : Except String α) : TxStep (github.liftEx x) :=
  txstep_nilWrites _ (fun _ => rfl)

lemma txstep_throwM {α : Type} (e : String) : TxStep (github.throwM e : github.M α) :=
  txstep_nilWrites _ (fun _ => rfl)

lemma txstep_wrapM {α : Type} {m : github.M α} (ctx : String) (h : TxStep m) :
    TxStep (github.wrapM ctx m) := by
  intro s
  have hw : ((github.wrapM ctx m) s).2 = (m s).2 := by
    unfold github.wrapM
    rcases m s with ⟨r, s1⟩
    rcases r with e | a <;> rfl
  rw [hw]
  exact h s

lemma txstep_processList {α : Type} {f : α → github.M Unit}
    (hf : ∀ x, TxStep (f x)) :
    ∀ l, TxStep (github.processList f l) := by
  intro l
  induction l with
  | nil => exact txstep_pure ()
  | cons x xs ih =>
    exact txstep_bind (hf x) (fun _ => ih)

lemma txstep_trySave (c : github.Client) {f : store.DB → store.DB}
    (hf : SaveShape f) : TxStep (github.trySave c f) := by
  intro s
  unfold github.trySave
  rcases hse : c.saveError s.writes.length with _ | e
  · simp only [hse]
    exact hf s
  · simp only [hse]
    exact ⟨trivial, trivial, [], (List.append_nil s.writes).symm,
      fun w hw => absurd hw (List.not_mem_nil w)⟩

lemma saveShape_organization (organization : Organization) :
    SaveShape (fun s => store.SaveOrganization s organization) := by
  intro s
  refine ⟨rfl, rfl, [store.Write.organization
    (store.sum256Organization organization) s.v
    (store.organizationRowOf organization)], rfl, ?_⟩
  intro w hw
  rw [List.mem_singleton] at hw
  rw [hw]
  rfl

lemma saveShape_user (orgID : Int) (orgLogin : String) (user : UserExtended) :
    SaveShape (fun s => store.SaveUser s orgID orgLogin user) := by
  intro s
  refine ⟨rfl, rfl, [store.Write.user (store.sum256User user) s.v
    (store.userRowOf orgID orgLogin user)], rfl, ?_⟩
  intro w hw
  rw [List.mem_singleton] at hw
  rw [hw]
  rfl

lemma saveShape_repository (repository : RepositoryFields) (topics : List String) :
    SaveShape (fun s => store.SaveRepository s repository topics) := by
  intro s
  refine ⟨rfl, rfl, [store.Write.repository
    (store.sum256Repository repository topics) s.v
    (store.repositoryRowOf repository topics)], rfl, ?_⟩
  intro w hw
  rw [List.mem_singleton] at hw
  rw [hw]
  rfl

lemma saveShape_issue (owner name : String) (issue : Issue)
    (assignees labels : List String) :
    SaveShape (fun s => store.SaveIssue s owner name issue assignees labels) := by
  intro s
  refine ⟨rfl, rfl, [store.Write.issue
    (store.sum256Issue owner name issue assignees labels) s.v
    (store.issueRowOf owner name issue assignees labels)], rfl, ?_⟩
  intro w hw
  rw [List.mem_singleton] at hw
  rw [hw]
  rfl

lemma saveShape_issueComment (owner name : String) (n : Int)
    (comment : IssueComment) :
    SaveShape (fun s => store.SaveIssueComment s owner name n comment) := by
  intro s
  refine ⟨rfl, rfl, [store.Write.issueComment
    (store.sum256IssueComment owner name n comment) s.v
    (store.issueCommentRowOf owner name n comment)], rfl, ?_⟩
  intro w hw
  rw [List.mem_singleton] at hw
  rw [hw]
  rfl

lemma saveShape_pullRequest (owner name : String) (pr : PullRequest)
    (assignees labels : List String) :
    SaveShape (fun s => store.SavePullRequest s owner name pr assignees labels) := by
  intro s
  refine ⟨rfl, rfl, [store.Write.pullRequest
    (store.sum256PullRequest owner name pr assignees labels) s.v
    (store.pullRequestRowOf owner name pr assignees labels)], rfl, ?_⟩
  intro w hw
  rw [List.mem_singleton] at hw
  rw [hw]
  rfl

lemma saveShape_pullRequestComment (owner name : String) (n : Int)
    (comment : IssueComment) :
    SaveShape (fun s => store.SavePullRequestComment s owner name n comment) :=
  saveShape_issueComment owner name n comment

lemma saveShape_pullRequestReview (owner name : String) (n : Int)
    (review : PullRequestReview) :
    SaveShape (fun s => store.SavePullRequestReview s owner name n review) := by
  intro s
  refine ⟨rfl, rfl, [store.Write.pullRequestReview
    (store.sum256PullRequestReview owner name n review) s.v
    (store.pullRequestReviewRowOf owner name n review)], rfl, ?_⟩
  intro w hw
  rw [List.mem_singleton] at hw
  rw [hw]
  rfl

lemma saveShape_pullRequestReviewComment (owner name : String) (n rid : Int)
    (comment : PullRequestReviewComment) :
    SaveShape (fun s =>
      store.SavePullRequestReviewComment s owner name n rid comment) := by
  intro s
  refine ⟨rfl, rfl, [store.Write.pullRequestReviewComment
    (store.sum256PullRequestReviewComment owner name n rid comment) s.v
    (store.pullRequestReviewCommentRowOf owner name n rid comment)], rfl, ?_⟩
  intro w hw
  rw [List.mem_singleton] at hw
  rw [hw]
  rfl

lemma txstep_downloadConnectionLoop {β σ : Type} (t : github.connectionType)
    {process : Connection β → σ → github.M σ}
    (hp : ∀ conn acc, TxStep (process conn acc)) :
    ∀ (fetch : List (github.PageFetch β)) (res : Connection β)
      (count : Int) (acc : σ),
      TxStep (github.downloadConnectionLoop t process fetch res count acc) := by
  intro fetch
  induction fetch with
  | nil =>
    intro res count acc
    simp only [github.downloadConnectionLoop]
    split
    · exact txstep_throwM _
    · exact txstep_pure _
  | cons p rest ih =>
    intro res count acc
    simp only [github.downloadConnectionLoop]
    split
    · exact txstep_bind (txstep_liftEx _)
        (fun next => txstep_bind (txstep_wrapM _ (hp _ _))
          (fun acc' => ih next _ acc'))
    · exact txstep_pure _

lemma txstep_downloadConnection {β σ : Type} (t : github.connectionType)
    (fetch : List (github.PageFetch β)) (res : Connection β)
    {process : Connection β → σ → github.M σ} (acc : σ)
    (hp : ∀ conn acc, TxStep (process conn acc)) :
    TxStep (github.downloadConnection t fetch res process acc) :=
  txstep_bind (txstep_wrapM _ (hp _ _))
    (fun acc' => txstep_downloadConnectionLoop t hp fetch res 0 acc')

lemma txstep_downloadTopics (c : github.Client) (repository : Repository) :
    TxStep (github.downloadTopics c repository) :=
  txstep_downloadConnection _ _ _ _ (fun _ _ => txstep_pure _)

lemma txstep_downloadIssueAssignees (c : github.Client) (issue : Issue) :
    TxStep (github.downloadIssueAssignees c issue) :=
  txstep_downloadConnection _ _ _ _ (fun _ _ => txstep_pure _)

lemma txstep_downloadIssueLabels (c : github.Client) (issue : Issue) :
    TxStep (github.downloadIssueLabels c issue) :=
  txstep_downloadConnection _ _ _ _ (fun _ _ => txstep_pure _)

lemma txstep_downloadIssueComments (c : github.Client) (owner name : String)
    (issue : Issue) : TxStep (github.downloadIssueComments c owner name issue) :=
  txstep_downloadConnection _ _ _ _ (fun conn _ =>
    txstep_processList (fun comment =>
      txstep_trySave c (saveShape_issueComment owner name _ comment)) conn.Nodes)

lemma txstep_downloadIssues (c : github.Client) (owner name : String)
    (repository : Repository) :
    TxStep (github.downloadIssues c owner name repository) :=
  txstep_downloadConnection _ _ _ _ (fun conn _ =>
    txstep_processList (fun issue =>
      txstep_bind (txstep_downloadIssueAssignees c issue) (fun assignees =>
        txstep_bind (txstep_downloadIssueLabels c issue) (fun labels =>
          txstep_bind (txstep_trySave c (saveShape_issue owner name issue assignees labels))
            (fun _ => txstep_downloadIssueComments c owner name issue))))
      conn.Nodes)

lemma txstep_downloadPullRequestAssignees (c : github.Client) (pr : PullRequest) :
    TxStep (github.downloadPullRequestAssignees c pr) :=
  txstep_downloadConnection _ _ _ _ (fun _ _ => txstep_pure _)

lemma txstep_downloadPullRequestLabels (c : github.Client) (pr : PullRequest) :
    TxStep (github.downloadPullRequestLabels c pr) :=
  txstep_downloadConnection _ _ _ _ (fun _ _ => txstep_pure _)

lemma txstep_downloadPullRequestComments (c : github.Client)
    (owner name : String) (pr : PullRequest) :
    TxStep (github.downloadPullRequestComments c owner name pr) :=
  txstep_downloadConnection _ _ _ _ (fun conn _ =>
    txstep_processList (fun comment =>
      txstep_wrapM _ (txstep_trySave c
        (saveShape_pullRequestComment owner name _ comment))) conn.Nodes)

lemma txstep_downloadReviewComments (c : github.Client)
    (owner name : String) (n : Int) (review : PullRequestReview) :
    TxStep (github.downloadReviewComments c owner name n review) :=
  txstep_downloadConnection _ _ _ _ (fun conn _ =>
    txstep_processList (fun comment =>
      txstep_wrapM _ (txstep_trySave c
        (saveShape_pullRequestReviewComment owner name n _ comment))) conn.Nodes)

lemma txstep_downloadPullRequestReviews (c : github.Client)
    (owner name : String) (pr : PullRequest) :
    TxStep (github.downloadPullRequestReviews c owner name pr) :=
  txstep_downloadConnection _ _ _ _ (fun conn _ =>
    txstep_processList (fun review =>
      txstep_bind (txstep_wrapM _ (txstep_trySave c
        (saveShape_pullRequestReview owner name _ review)))
        (fun _ => txstep_downloadReviewComments c owner name _ review)) conn.Nodes)

lemma txstep_downloadPullRequests (c : github.Client) (owner name : String)
    (repository : Repository) :
    TxStep (github.downloadPullRequests c owner name repository) :=
  txstep_downloadConnection _ _ _ _ (fun conn _ =>
    txstep_processList (fun pr =>
      txstep_bind (txstep_downloadPullRequestAssignees c pr) (fun assignees =>
        txstep_bind (txstep_downloadPullRequestLabels c pr) (fun labels =>
          txstep_bind (txstep_trySave c
            (saveShape_pullRequest owner name pr assignees labels))
            (fun _ => txstep_bind (txstep_downloadPullRequestComments c owner name pr)
              (fun _ => txstep_downloadPullRequestReviews c owner name pr)))))
      conn.Nodes)

lemma txstep_downloadRepositoryBody (c : github.Client) (owner name : String) :
    TxStep (github.downloadRepositoryBody c owner name) :=
  txstep_bind (txstep_liftEx _) (fun repository =>
    txstep_bind (txstep_downloadTopics c repository) (fun topics =>
      txstep_bind (txstep_wrapM _ (txstep_trySave c
        (saveShape_repository repository.RepositoryFields topics)))
        (fun _ => txstep_bind (txstep_downloadIssues c owner name repository)
          (fun _ => txstep_downloadPullRequests c owner name repository))))

lemma txstep_downloadUsers (c : github.Client) (name : String)
    (organization : Organization) :
    TxStep (github.downloadUsers c name organization) :=
  txstep_downloadConnection _ _ _ _ (fun conn _ =>
    txstep_processList (fun user =>
      txstep_wrapM _ (txstep_trySave c (saveShape_user _ _ user))) conn.Nodes)

lemma txstep_downloadOrganizationBody (c : github.Client) (name : String) :
    TxStep (github.downloadOrganizationBody c name) :=
  txstep_bind (txstep_liftEx _) (fun organization =>
    txstep_bind (txstep_wrapM _ (txstep_trySave c
      (saveShape_organization organization)))
      (fun _ => txstep_downloadUsers c name organization))

/-! ### Helper lemmas about the retry loop and the interceptor -/

lemma retryAux_all_transient (op : Nat → AttemptOutcome) (e : Nat → HTTPError)
    (hop : ∀ j, op j = AttemptOutcome.transientErr (e j)) :
    ∀ n i, retryAux op i n = (i + n + 1, some (e (i + n))) := by
  intro n
  induction n with
  | zero =>
    intro i
    simp [retryAux, hop i]
  | succ m ih =>
    intro i
    have h1 : i + 1 + m = i + (m + 1) := by omega
    simp only [retryAux, hop i]
    rw [ih (i + 1), h1]

lemma retryAux_permanent (op : Nat → AttemptOutcome) (i : Nat)
    (e : HTTPError) (h : op i = AttemptOutcome.permanentErr e) :
    ∀ n, retryAux op i n = (i + 1, some e) := by
  intro n
  cases n <;> simp [retryAux, h]

lemma roundTrip_forwardedAt (rt : RateLimitTransport) (now : Int)
    (inner : TransportResult) :
    (RateLimitTransport.RoundTrip rt now inner).forwardedAt =
      max now rt.lockedUntil := by
  unfold RateLimitTransport.RoundTrip
  rcases inner with e | resp
  · rfl
  · dsimp only
    rcases checkResponseUnauth resp with _ | e
    · rcases checkResponseRateLimit (max now rt.lockedUntil)
          rt.defaultAbuseSleep resp with _ | ⟨e, w⟩ <;> rfl
    · rfl

end Proofs

section Claims

open github store graphql

lemma download_repository_atomic_aux (c : github.Client) (owner name : String)
    (version : Int) (s : store.DB) :
    (∀ e, (github.DownloadRepository c owner name version s).1 = Except.error e →
      ((github.DownloadRepository c owner name version s).2).db = s.db ∧
      ((github.DownloadRepository c owner name version s).2).writes = []) ∧
    ((github.DownloadRepository c owner name version s).1 = Except.ok () →
      ((github.DownloadRepository c owner name version s).2).db =
        ((github.downloadRepositoryBody c owner name
            (store.Begin (store.Version s version))).2).writes.foldl
          store.applyWrite s.db ∧
      (∀ w ∈ ((github.downloadRepositoryBody c owner name
          (store.Begin (store.Version s version))).2).writes,
        store.Write.version w = version) ∧
      ((github.DownloadRepository c owner name version s).2).writes = []) := by
  obtain ⟨hdb, hv, ws, hw, hver⟩ := txstep_downloadRepositoryBody c owner name
    (store.Begin (store.Version s version))
  unfold github.DownloadRepository
  dsimp only
  rcases hrun : github.downloadRepositoryBody c owner name
      (store.Begin (store.Version s version)) with ⟨r, s1⟩
  rw [hrun] at hdb hv hw
  have hbw : (store.Begin (store.Version s version)).writes = [] := rfl
  rw [hbw, List.nil_append] at hw
  rcases r with e | a
  · constructor
    · intro e' _
      exact ⟨hdb, rfl⟩
    · intro h
      exact Except.noConfusion h
  · constructor
    · intro e' h
      exact Except.noConfusion h
    · intro _
      refine ⟨?_, ?_, rfl⟩
      · show (store.Commit s1).db = _
        unfold store.Commit
        dsimp only
        rw [hdb, hw]
        rfl
      · intro w hwmem
        rw [hw] at hwmem
        rw [hver w hwmem]
        rfl

lemma download_organization_atomic_aux (c : github.Client) (name : String)
    (version : Int) (s : store.DB) :
    (∀ e, (github.DownloadOrganization c name version s).1 = Except.error e →
      ((github.DownloadOrganization c name version s).2).db = s.db ∧
      ((github.DownloadOrganization c name version s).2).writes = []) ∧
    ((github.DownloadOrganization c name version s).1 = Except.ok () →
      ((github.DownloadOrganization c name version s).2).db =
        ((github.downloadOrganizationBody c name
            (store.Begin (store.Version s version))).2).writes.foldl
          store.applyWrite s.db ∧
      (∀ w ∈ ((github.downloadOrganizationBody c name
          (store.Begin (store.Version s version))).2).writes,
        store.Write.version w = version) ∧
      ((github.DownloadOrganization c name version s).2).writes = []) := by
  obtain ⟨hdb, hv, ws, hw, hver⟩ := txstep_downloadOrganizationBody c name
    (store.Begin (store.Version s version))
  unfold github.DownloadOrganization
  dsimp only
  rcases hrun : github.downloadOrganizationBody c name
      (store.Begin (store.Version s version)) with ⟨r, s1⟩
  rw [hrun] at hdb hv hw
  have hbw : (store.Begin (store.Version s version)).writes = [] := rfl
  rw [hbw, List.nil_append] at hw
  rcases r with e | a
  · constructor
    · intro e' _
      exact ⟨hdb, rfl⟩
    · intro h
      exact Except.noConfusion h
  · constructor
    · intro e' h
      exact Except.noConfusion h
    · intro _
      refine ⟨?_, ?_, rfl⟩
      · show (store.Commit s1).db = _
        unfold store.Commit
        dsimp only
        rw [hdb, hw]
        rfl
      · intro w hwmem
        rw [hw] at hwmem
        rw [hver w hwmem]
        rfl

/-- Claim C1: every `DownloadRepository(owner, name, version)` run (and
likewise `DownloadOrganization`) is atomic: when the initial query, a
pagination query, a processor step or a `Save…` call errors, the
transaction opened by `Begin` is rolled back — the committed database is
exactly as before and no pending record remains; when no step errors,
the transaction is committed and the database becomes the result of
executing exactly the ingestion's statements, all tagged with the chosen
version. -/
theorem C1_download_atomic (c : github.Client) (owner name : String)
    (version : Int) (s : store.DB) :
    ((∀ e, (github.DownloadRepository c owner name version s).1 = Except.error e →
      ((github.DownloadRepository c owner name version s).2).db = s.db ∧
      ((github.DownloadRepository c owner name version s).2).writes = []) ∧
    ((github.DownloadRepository c owner name version s).1 = Except.ok () →
      ((github.DownloadRepository c owner name version s).2).db =
        ((github.downloadRepositoryBody c owner name
            (store.Begin (store.Version s version))).2).writes.foldl
          store.applyWrite s.db ∧
      (∀ w ∈ ((github.downloadRepositoryBody c owner name
          (store.Begin (store.Version s version))).2).writes,
        store.Write.version w = version) ∧
      ((github.DownloadRepository c owner name version s).2).writes = [])) ∧
    ((∀ e, (github.DownloadOrganization c name version s).1 = Except.error e →
      ((github.DownloadOrganization c name version s).2).db = s.db ∧
      ((github.DownloadOrganization c name version s).2).writes = []) ∧
    ((github.DownloadOrganization c name version s).1 = Except.ok () →
      ((github.DownloadOrganization c name version s).2).db =
        ((github.downloadOrganizationBody c name
            (store.Begin (store.Version s version))).2).writes.foldl
          store.applyWrite s.db ∧
      (∀ w ∈ ((github.downloadOrganizationBody c name
          (store.Begin (store.Version s version))).2).writes,
        store.Write.version w = version) ∧
      ((github.DownloadOrganization c name version s).2).writes = [])) :=
  ⟨download_repository_atomic_aux c owner name version s,
    download_organization_atomic_aux c name version s⟩

/-- Witness for C1: a failing first query leaves the committed database
untouched, and a fully successful organization download commits exactly
its own statements. -/
theorem C1_download_atomic_witness :
    (github.DownloadRepository failingClient "o" "n" 1 exampleDB).2.db =
        exampleDB.db ∧
    (github.DownloadOrganization exampleClient "org" 1 exampleDB).2.db =
      ((github.downloadOrganizationBody exampleClient "org"
          (store.Begin (store.Version exampleDB 1))).2).writes.foldl
        store.applyWrite exampleDB.db := by
  constructor
  · exact ((C1_download_atomic failingClient "o" "n" 1 exampleDB).1.1
      "first query failed: boom" rfl).1
  · exact ((C1_download_atomic exampleClient "o" "org" 1 exampleDB).2.2 rfl).1

end Claims

section Claims2

open github store graphql

set_option maxRecDepth 8000

/-- Counterexample to C2 as stated: replaying a successful
`DownloadRepository` with the same version 1 does not leave the database
bit-identical — the repository row's `versions` array becomes `[1, 1]`
because the conflict clause appends unconditionally. -/
theorem C2_replay_counterexample :
    (github.DownloadRepository exampleClient "o" "n" 1
        (github.DownloadRepository exampleClient "o" "n" 1 exampleDB).2).2.db ≠
      (github.DownloadRepository exampleClient "o" "n" 1 exampleDB).2.db := by
  intro h
  have h1 : (github.DownloadRepository exampleClient "o" "n" 1
      (github.DownloadRepository exampleClient "o" "n" 1
        exampleDB).2).2.db.repositories_versioned.map
      (fun r => r.versions) = [[1, 1]] := by rfl
  have h2 : (github.DownloadRepository exampleClient "o" "n" 1
      exampleDB).2.db.repositories_versioned.map
      (fun r => r.versions) = [[1]] := by rfl
  rw [h, h2] at h1
  exact absurd h1 (by decide)

/-- Claim C2 (amended): replaying any `Save…` upsert with the same
record and version is idempotent up to version multiplicity — the second
execution changes no fingerprint and no payload column, and the set of
versions at which each row is visible is unchanged (the logical view at
every version is identical); only the `versions` array may carry the
version twice. -/
theorem C2_upsert_replay_semantics {P : Type} (t : List (store.VRow P))
    (key : String) (v : Int) (p : P) :
    ((store.upsertVersioned (store.upsertVersioned t key v p) key v p).map
        (fun r => r.sum256) =
      (store.upsertVersioned t key v p).map (fun r => r.sum256)) ∧
    ((store.upsertVersioned (store.upsertVersioned t key v p) key v p).map
        (fun r => r.row) =
      (store.upsertVersioned t key v p).map (fun r => r.row)) ∧
    ∀ w : Int,
      store.viewAtVersion w
          (store.upsertVersioned (store.upsertVersioned t key v p) key v p) =
        store.viewAtVersion w (store.upsertVersioned t key v p) := by
  rw [upsert_twice_eq_map]
  exact ⟨map_sum256_upd key v _, map_row_upd key v _,
    fun w => view_upd w v key _ (upsert_key_has_v t key v p)⟩

/-- Counterexample to C3 as stated: when the already-downloaded count
has reached the advertised total while the server still reports a next
page, the requested size is the connection's configured page size (50
for `issues`), not `clamp(T - C, [1, limit]) = 1`. -/
theorem C3_page_size_counterexample :
    github.nextPageSize github.issuesType 5 5 = 50 ∧
    github.nextPageSize github.issuesType 5 5 ≠
      max 1 (min (5 - 5) (github.connectionLimit github.issuesType)) := by
  constructor
  · decide
  · decide

lemma connLimit_cases (t : github.connectionType) :
    github.connectionLimit t = 50 ∧ t = github.pullRequestsType ∨
      github.connectionLimit t = 100 := by
  unfold github.connectionLimit
  split_ifs with h
  · exact Or.inl ⟨by rw [h]; rfl, h⟩
  · exact Or.inr rfl

/-- Claim C3 (amended): for every connection-page request after the
first, with T the connection's `total_count` and C the count of already
downloaded items, the requested page size is `clamp(T - C, [1, limit])`
when C < T, and the connection's configured default page size when
T ≤ C (entities may disappear or appear while downloading); the limit
is 100 for every connection type except `pullRequests`, whose limit is
its configured page size 50. -/
theorem C3_page_size_policy (t : github.connectionType) (total count : Int) :
    (count < total →
      github.nextPageSize t total count =
        max 1 (min (total - count) (github.connectionLimit t))) ∧
    (total ≤ count → github.nextPageSize t total count = t.PageSize) ∧
    github.connectionLimit github.pullRequestsType = 50 ∧
    (t ≠ github.pullRequestsType → github.connectionLimit t = 100) := by
  refine ⟨?_, ?_, by decide, ?_⟩
  · intro h
    rcases connLimit_cases t with ⟨hv, ht⟩ | hv <;>
      · unfold github.nextPageSize github.getPerPage
        rw [hv]
        dsimp only
        split_ifs <;> omega
  · intro h
    rcases connLimit_cases t with ⟨hv, ht⟩ | hv <;>
      · unfold github.nextPageSize github.getPerPage
        rw [hv]
        dsimp only
        split_ifs <;> omega
  · intro h
    unfold github.connectionLimit
    rw [if_neg h]

/-- Witness for C3: a mid-download `issueComments` page request with
total 7 and 3 items downloaded asks for `clamp(4, [1, 100]) = 4`. -/
theorem C3_page_size_policy_witness :
    github.nextPageSize github.issueCommentsType 7 3 =
      max 1 (min (7 - 3) (github.connectionLimit github.issueCommentsType)) :=
  (C3_page_size_policy github.issueCommentsType 7 3).1 (by decide)

end Claims2

section Claims3

open github store graphql

/-- Counterexample to C4 as stated: a 403 carrying `Retry-After: 10`
locks the interceptor until now + 10, not
now + max(Retry-After, default_abuse_sleep) = now + 60. -/
theorem C4_abuse_counterexample :
    (RateLimitTransport.RoundTrip rt0 0
        (TransportResult.response resp403RetryAfter10)).state.lockedUntil = 10 ∧
    (RateLimitTransport.RoundTrip rt0 0
        (TransportResult.response resp403RetryAfter10)).state.lockedUntil ≠
      0 + max 10 defaultAbuseRetryAfter := by
  constructor
  · decide
  · decide

/-- Claim C4 (amended): on a 403 that does not also signal standard
rate-limit exhaustion, a parsed `Retry-After` of n seconds sets
locked-until to now + n and returns `ErrAbuseRateLimit` with that time;
with no parseable `Retry-After`, a body reading as an abuse document
sets locked-until to now + default_abuse_sleep (60 s by default);
any other 403 passes through unchanged with no state change. -/
theorem C4_abuse_rate_limit (rt : RateLimitTransport) (now : Int)
    (resp : Response) (h403 : resp.StatusCode = 403)
    (hnorl : asErrRateLimit resp = none) (hlock : rt.lockedUntil ≤ now) :
    (∀ n, resp.RetryAfter = some n →
      (RateLimitTransport.RoundTrip rt now (TransportResult.response resp)).error =
          some (HTTPError.abuseRateLimit (now + n)) ∧
      (RateLimitTransport.RoundTrip rt now
          (TransportResult.response resp)).state.lockedUntil = now + n) ∧
    (resp.RetryAfter = none → ∀ aer, resp.BodyJSON = some aer →
      isAbuseRateLimit aer = true →
      (RateLimitTransport.RoundTrip rt now (TransportResult.response resp)).error =
          some (HTTPError.abuseRateLimit (now + rt.defaultAbuseSleep)) ∧
      (RateLimitTransport.RoundTrip rt now
          (TransportResult.response resp)).state.lockedUntil =
        now + rt.defaultAbuseSleep) ∧
    (resp.RetryAfter = none →
      (resp.BodyJSON = none ∨
        ∃ aer, resp.BodyJSON = some aer ∧ isAbuseRateLimit aer = false) →
      (RateLimitTransport.RoundTrip rt now (TransportResult.response resp)).error =
          none ∧
      (RateLimitTransport.RoundTrip rt now
          (TransportResult.response resp)).response = some resp ∧
      (RateLimitTransport.RoundTrip rt now (TransportResult.response resp)).state =
        rt) ∧
    defaultAbuseRetryAfter = 60 := by
  have hcu : checkResponseUnauth resp = none := by
    simp [checkResponseUnauth, h403]
  have hmax : max now rt.lockedUntil = now := max_eq_left hlock
  refine ⟨?_, ?_, ?_, rfl⟩
  · intro n hra
    have hab : asErrAbuseRateLimit now rt.defaultAbuseSleep resp =
        some (now + n) := by
      simp [asErrAbuseRateLimit, h403, hra]
    unfold RateLimitTransport.RoundTrip
    simp [hcu, checkResponseRateLimit, hnorl, hmax, hab]
  · intro hra aer hjson habuse
    have hab : asErrAbuseRateLimit now rt.defaultAbuseSleep resp =
        some (now + rt.defaultAbuseSleep) := by
      simp [asErrAbuseRateLimit, h403, hra, hjson, habuse]
    unfold RateLimitTransport.RoundTrip
    simp [hcu, checkResponseRateLimit, hnorl, hmax, hab]
  · intro hra hbody
    have hab : asErrAbuseRateLimit now rt.defaultAbuseSleep resp = none := by
      rcases hbody with hnone | ⟨aer, hjson, hfalse⟩
      · simp [asErrAbuseRateLimit, h403, hra, hnone]
      · simp [asErrAbuseRateLimit, h403, hra, hjson, hfalse]
    unfold RateLimitTransport.RoundTrip
    simp [hcu, checkResponseRateLimit, hnorl, hmax, hab]

/-- Witness for C4: a 403 with `Retry-After: 30` arriving at time 10 on
an unlocked interceptor locks it until 40. -/
theorem C4_abuse_rate_limit_witness :
    (RateLimitTransport.RoundTrip rt0 10
        (TransportResult.response resp403RetryAfter30)).error =
      some (HTTPError.abuseRateLimit (10 + 30)) ∧
    (RateLimitTransport.RoundTrip rt0 10
        (TransportResult.response resp403RetryAfter30)).state.lockedUntil =
      10 + 30 :=
  (C4_abuse_rate_limit rt0 10 resp403RetryAfter30 rfl rfl (by decide)).1 30 rfl

/-- Claim C5: when the underlying transport answers with a status of at
least 500 on every attempt, the retry transport performs exactly 11
connection attempts (one initial plus the default maximum of 10
retries) and surfaces the failure with the status line and body of the
last response; it never makes a 12th attempt. -/
theorem C5_retry_exhaustion (g : Nat → Response)
    (h : ∀ i, 500 ≤ (g i).StatusCode) :
    retryRun (fun i => doAttempt (Except.ok (g i))) =
      (11, some (HTTPError.statusError (g 10).Status (g 10).Body)) ∧
    maxRetries = 10 := by
  refine ⟨?_, rfl⟩
  have hop : ∀ j, doAttempt (Except.ok (g j)) =
      AttemptOutcome.transientErr (HTTPError.statusError (g j).Status (g j).Body) := by
    intro j
    simp only [doAttempt]
    rw [if_pos]
    exact h j
  have hh := retryAux_all_transient (fun i => doAttempt (Except.ok (g i)))
    (fun j => HTTPError.statusError (g j).Status (g j).Body) hop maxRetries 0
  rw [retryRun, hh]
  norm_num [maxRetries]

/-- Witness for C5: a server that always answers 502 costs exactly 11
attempts and surfaces the 502 with its body. -/
theorem C5_retry_exhaustion_witness :
    retryRun (fun _ => doAttempt (Except.ok resp502)) =
      (11, some (HTTPError.statusError "502 Bad Gateway" "server overloaded")) :=
  (C5_retry_exhaustion (fun _ => resp502) (fun _ => by
    show (500 : Int) ≤ resp502.StatusCode
    decide)).1

/-- Claim C6: a 401 response recognized by the rate-limit interceptor is
converted to `ErrUnauthorized`, which the retry transport treats as
permanent: the stack performs exactly one connection attempt and
surfaces the unauthorized error with the server message. -/
theorem C6_unauthorized_no_retry (rt : RateLimitTransport) (now : Int)
    (resp : Response) (aer : apiErrorResponse) (h1 : resp.StatusCode = 401)
    (h2 : resp.BodyJSON = some aer) :
    retryRun (fun _ => stackAttempt rt now (TransportResult.response resp)) =
      (1, some (HTTPError.unauthorized aer.Message)) := by
  have hs : stackAttempt rt now (TransportResult.response resp) =
      AttemptOutcome.permanentErr (HTTPError.unauthorized aer.Message) := by
    unfold stackAttempt RateLimitTransport.RoundTrip
    simp [checkResponseUnauth, h1, h2, doAttempt]
  rw [retryRun, retryAux_permanent _ 0 _ hs maxRetries]

/-- Witness for C6: a concrete 401 with a parsed "Bad credentials" body
costs exactly one attempt. -/
theorem C6_unauthorized_no_retry_witness :
    retryRun (fun _ => stackAttempt rt0 5 (TransportResult.response resp401)) =
      (1, some (HTTPError.unauthorized "Bad credentials")) :=
  C6_unauthorized_no_retry rt0 5 resp401
    { Message := "Bad credentials", DocumentationURL := "" } rfl rfl

/-- Counterexample to C7 as stated: a 401 response that also carries
`X-RateLimit-Remaining: 0` and a parseable reset is converted to
`ErrUnauthorized` — the unauthorized check runs first — and the
locked-until timestamp is not set. -/
theorem C7_rate_limit_counterexample :
    (RateLimitTransport.RoundTrip rt0 5
        (TransportResult.response resp401WithRateHeaders)).error =
      some (HTTPError.unauthorized "Bad credentials") ∧
    (RateLimitTransport.RoundTrip rt0 5
        (TransportResult.response resp401WithRateHeaders)).state.lockedUntil = 0 ∧
    ¬((RateLimitTransport.RoundTrip rt0 5
        (TransportResult.response resp401WithRateHeaders)).error =
          some (HTTPError.rateLimit (100 + 1)) ∧
      (RateLimitTransport.RoundTrip rt0 5
        (TransportResult.response resp401WithRateHeaders)).state.lockedUntil =
        100 + 1) := by
  refine ⟨by decide, by decide, ?_⟩
  intro h
  exact absurd h.2 (by decide)

/-- Claim C7 (amended): whenever a non-401 response carries
`X-RateLimit-Remaining: 0` together with a parseable
`X-RateLimit-Reset`, the interceptor sets locked-until to reset + 1 s
and returns `ErrRateLimit` carrying that time; on the same interceptor
instance no subsequent request is forwarded before locked-until — a
request arriving earlier is forwarded exactly at reset + 1 s. -/
theorem C7_rate_limit_lockout (rt : RateLimitTransport) (now reset : Int)
    (resp : Response) (h401 : resp.StatusCode ≠ 401)
    (hrem : resp.RateLimitRemaining = some 0)
    (hres : resp.RateLimitReset = some reset) :
    (RateLimitTransport.RoundTrip rt now (TransportResult.response resp)).error =
        some (HTTPError.rateLimit (reset + 1)) ∧
    (RateLimitTransport.RoundTrip rt now
        (TransportResult.response resp)).state.lockedUntil = reset + 1 ∧
    ∀ (now' : Int) (inner : TransportResult),
      reset + 1 ≤ (RateLimitTransport.RoundTrip
        (RateLimitTransport.RoundTrip rt now
          (TransportResult.response resp)).state now' inner).forwardedAt := by
  have hcu : checkResponseUnauth resp = none := by
    simp [checkResponseUnauth, h401]
  have hrl : checkResponseRateLimit (max now rt.lockedUntil)
      rt.defaultAbuseSleep resp =
        some (HTTPError.rateLimit (reset + 1), reset + 1) := by
    simp [checkResponseRateLimit, asErrRateLimit, hres, hrem]
  refine ⟨?_, ?_, ?_⟩
  · unfold RateLimitTransport.RoundTrip
    simp [hcu, hrl]
  · unfold RateLimitTransport.RoundTrip
    simp [hcu, hrl]
  · intro now' inner
    have hlk : ((RateLimitTransport.RoundTrip rt now
        (TransportResult.response resp)).state).lockedUntil = reset + 1 := by
      unfold RateLimitTransport.RoundTrip
      simp [hcu, hrl]
    rw [roundTrip_forwardedAt, hlk]
    exact le_max_right _ _

/-- Witness for C7: a 200 response with exhausted rate-limit headers
resetting at 100 locks the interceptor until 101, and a request arriving
at time 50 is not forwarded before 101. -/
theorem C7_rate_limit_lockout_witness :
    (RateLimitTransport.RoundTrip rt0 5
        (TransportResult.response respRateLimited)).error =
      some (HTTPError.rateLimit (100 + 1)) ∧
    (RateLimitTransport.RoundTrip rt0 5
        (TransportResult.response respRateLimited)).state.lockedUntil = 100 + 1 ∧
    100 + 1 ≤ (RateLimitTransport.RoundTrip
      (RateLimitTransport.RoundTrip rt0 5
        (TransportResult.response respRateLimited)).state 50
      (TransportResult.response respRateLimited)).forwardedAt := by
  obtain ⟨h1, h2, h3⟩ := C7_rate_limit_lockout rt0 5 100 respRateLimited
    (by decide) rfl rfl
  exact ⟨h1, h2, h3 50 (TransportResult.response respRateLimited)⟩

end Claims3

section Claims4

open github store graphql

/-- Claim C8: after `Cleanup(V)`, each of the eight versioned tables
holds exactly the rows whose `versions` contained V — every other row
has been deleted — and every surviving row's `versions` equals the
one-element array `[V]`. -/
theorem C8_cleanup_spec (v : Int) (db : store.Database) :
    store.Cleanup v db =
      { organizations_versioned :=
          (db.organizations_versioned.filter
            (fun r => decide (v ∈ r.versions))).map
            (fun r => { r with versions := [v] })
        users_versioned :=
          (db.users_versioned.filter (fun r => decide (v ∈ r.versions))).map
            (fun r => { r with versions := [v] })
        repositories_versioned :=
          (db.repositories_versioned.filter
            (fun r => decide (v ∈ r.versions))).map
            (fun r => { r with versions := [v] })
        issues_versioned :=
          (db.issues_versioned.filter (fun r => decide (v ∈ r.versions))).map
            (fun r => { r with versions := [v] })
        issue_comments_versioned :=
          (db.issue_comments_versioned.filter
            (fun r => decide (v ∈ r.versions))).map
            (fun r => { r with versions := [v] })
        pull_requests_versioned :=
          (db.pull_requests_versioned.filter
            (fun r => decide (v ∈ r.versions))).map
            (fun r => { r with versions := [v] })
        pull_request_reviews_versioned :=
          (db.pull_request_reviews_versioned.filter
            (fun r => decide (v ∈ r.versions))).map
            (fun r => { r with versions := [v] })
        pull_request_comments_versioned :=
          (db.pull_request_comments_versioned.filter
            (fun r => decide (v ∈ r.versions))).map
            (fun r => { r with versions := [v] }) } := by
  unfold store.Cleanup
  simp only [cleanupTable_eq]

/-- Claim C9: `SavePullRequestComment(owner, name, number, comment)`
performs exactly the same state change as
`SaveIssueComment(owner, name, number, comment)` — PR comments land in
the issue-comments table — while `SavePullRequestReviewComment` writes
to the distinct pull-request-comments table: its statement leaves
`issue_comments_versioned` untouched, and an issue-comment statement
leaves `pull_request_comments_versioned` untouched. -/
theorem C9_pull_request_comment_destination :
    (∀ (s : store.DB) (owner name : String) (n : Int)
        (comment : graphql.IssueComment),
      store.SavePullRequestComment s owner name n comment =
        store.SaveIssueComment s owner name n comment) ∧
    (∀ (s : store.DB) (owner name : String) (n : Int)
        (comment : graphql.IssueComment),
      (store.SaveIssueComment s owner name n comment).writes =
        s.writes ++ [store.Write.issueComment
          (store.sum256IssueComment owner name n comment) s.v
          (store.issueCommentRowOf owner name n comment)]) ∧
    (∀ (db : store.Database) (key : String) (v : Int)
        (row : store.IssueCommentRow),
      (store.applyWrite db
          (store.Write.issueComment key v row)).pull_request_comments_versioned =
        db.pull_request_comments_versioned) ∧
    (∀ (s : store.DB) (owner name : String) (n rid : Int)
        (rc : graphql.PullRequestReviewComment),
      (store.SavePullRequestReviewComment s owner name n rid rc).writes =
        s.writes ++ [store.Write.pullRequestReviewComment
          (store.sum256PullRequestReviewComment owner name n rid rc) s.v
          (store.pullRequestReviewCommentRowOf owner name n rid rc)]) ∧
    (∀ (db : store.Database) (key : String) (v : Int)
        (row : store.PullRequestReviewCommentRow),
      (store.applyWrite db
          (store.Write.pullRequestReviewComment key v row)).issue_comments_versioned =
        db.issue_comments_versioned) :=
  ⟨fun _ _ _ _ _ => rfl, fun _ _ _ _ _ => rfl, fun _ _ _ _ => rfl,
    fun _ _ _ _ _ _ => rfl, fun _ _ _ _ => rfl⟩

/-- Claim C10: `repoOwnerID` selects the organization branch only for
the literal `"Orgazation"`, so a repository whose owner `__typename` is
`"Organization"` — the value the forge actually returns — falls to the
default and yields 0, while `"User"` yields the owning user's id;
consequently `SaveRepository` stores `owner_id = 0` for
organization-owned repositories. -/
theorem C10_repo_owner_id (repository : graphql.RepositoryFields) :
    (repository.Owner.Typename = "Organization" →
      store.repoOwnerID repository = 0 ∧
      ∀ topics, (store.repositoryRowOf repository topics).owner_id = 0) ∧
    (repository.Owner.Typename = "User" →
      store.repoOwnerID repository = repository.Owner.User.DatabaseID) := by
  constructor
  · intro h
    constructor
    · unfold store.repoOwnerID
      rw [h]
      rfl
    · intro topics
      show store.repoOwnerID repository = 0
      unfold store.repoOwnerID
      rw [h]
      rfl
  · intro h
    unfold store.repoOwnerID
    rw [h]
    rfl

/-- Witness for C10: a concrete organization-owned repository (owner id
7 on the organization branch) is stored with `owner_id = 0`. -/
theorem C10_repo_owner_id_witness :
    store.repoOwnerID orgOwnedRepository = 0 ∧
    (store.repositoryRowOf orgOwnedRepository []).owner_id = 0 := by
  obtain ⟨h1, h2⟩ := (C10_repo_owner_id orgOwnedRepository).1 rfl
  exact ⟨h1, h2 []⟩

end Claims4
